import Mathlib

/-!
Verification of the agent decision loop and action-execution state machine of
the AISA browser-automation agent (src/main.py) against its natural-language
specification.

The Python code keeps all mission state in one dictionary (`AgentState`,
main.py lines 760-806) threaded through three LangGraph nodes:
`agent_reasoning_node`, `execute_action_node` and `supervisor_node`.  Below,
that dictionary becomes an explicit structure, the browser page becomes an
oracle of operation outcomes (`PageOracle`), and each node becomes a pure
function.  Python exceptions become explicit results; page operations
performed during a step are recorded in a trace of `PageOp`s, and the path
taken through the executor is recorded in an `ExecPath` tag.

Log-message strings keep the identifying text of the source messages;
decorative emoji glyphs and some purely cosmetic formatting lines are elided.
-/

namespace AISA

/-! String helpers: Python `needle in hay` substring test and friends. -/

/-- Boolean test that the first character list starts with the second. -/
def strStartsAux : List Char → List Char → Bool
  | [], _ => true
  | _ :: _, [] => false
  | a :: as, b :: bs => a == b && strStartsAux as bs

/-- Boolean test that `needle` occurs as a contiguous run inside `hay`. -/
def strContainsAux (needle : List Char) : List Char → Bool
  | [] => strStartsAux needle []
  | b :: bs => strStartsAux needle (b :: bs) || strContainsAux needle bs

/-- Python `needle in hay` for strings (substring containment). -/
def strContains (hay needle : String) : Bool :=
  strContainsAux needle.data hay.data

/-- Python `s.strip()`: leading and trailing whitespace removed. -/
def pyStrip (s : String) : String :=
  ⟨((s.data.dropWhile Char.isWhitespace).reverse.dropWhile Char.isWhitespace).reverse⟩

/-- Python `s.lower()`. -/
def pyLower (s : String) : String :=
  ⟨s.data.map Char.toLower⟩

/-- Python `sep.join(parts)`. -/
def joinSep (sep : String) : List String → String
  | [] => ""
  | s :: ss => ss.foldl (fun r t => r ++ sep ++ t) s

/-- Python `seq[-n:]`: the last `n` elements of a list. -/
def lastN {α : Type} (n : Nat) (l : List α) : List α :=
  l.drop (l.length - n)

/-- Python `str(e).splitlines()[0]`: text up to the first line break. -/
def firstLine (s : String) : String :=
  ⟨s.data.takeWhile (fun c => c ≠ '\n' ∧ c ≠ '\r')⟩

/-! Association-list model of Python dicts keyed by strings. -/

/-- Python `d[k] = v`: replace the binding of `k`, or append it. -/
def dictSet {α : Type} : List (String × α) → String → α → List (String × α)
  | [], k, v => [(k, v)]
  | (k', v') :: rest, k, v =>
      if k' = k then (k, v) :: rest else (k', v') :: dictSet rest k v

/-- Python `d[k] = d.get(k, 0) + 1`. -/
def dictIncr (d : List (String × Nat)) (k : String) : List (String × Nat) :=
  dictSet d k ((d.lookup k).getD 0 + 1)

/-! Data model: actions, items, contexts, mission state. -/

/-- One extracted result item (only the `url` field is inspected by the core;
main.py lines 1898-1903). -/
structure Item where
  url : Option String := none
  title : String := ""
  deriving Repr, DecidableEq

/-- A proposed action, modelling the JSON dict the reasoner returns.  `none`
models an absent key; `a.get(k, d)` becomes `Option.getD`. -/
structure Action where
  type : Option String := none
  selector : Option String := none
  text : Option String := none
  key : Option String := none
  direction : Option String := none
  items : List Item := []
  reason : Option String := none
  input_type : Option String := none
  prompt : Option String := none
  is_sensitive : Bool := false
  deriving Repr, DecidableEq

/-- The exhaustive-selector-testing context installed by
`extract_correct_selector_using_text` (main.py lines 2325-2341); only the
fields the control flow reads are modelled.  `Option FoundContext` with
`none` models the empty dict `{}` (which is falsy in Python). -/
structure FoundContext where
  text : String := ""
  untested_selectors : List String := []
  current_test_index : Nat := 0
  testing_required : Bool := false
  deriving Repr, DecidableEq

/-- A pending user-input request (main.py lines 2412-2418). -/
structure UserInputRequest where
  input_type : String := "text"
  prompt : String := ""
  is_sensitive : Bool := false
  deriving Repr, DecidableEq

/-- Search-flow progress flags (main.py `search_flow_state`). -/
structure SearchFlowState where
  detected : Bool := false
  clicked : Bool := false
  filled : Bool := false
  submitted : Bool := false
  deriving Repr, DecidableEq

/-- Result of `verify_action_from_screenshot` (main.py lines 1033-1041);
`screenshot_ok` models `screenshot_path` having been set. -/
structure VerificationResult where
  success : Bool := false
  changes_detected : Bool := false
  verification_notes : List String := []
  screenshot_ok : Bool := false
  deriving Repr, DecidableEq

/-- The mission state dict (main.py lines 760-806), restricted to the fields
the decision loop reads or writes.  Token-usage entries are modelled by their
`task` tag. -/
structure AgentState where
  url : String := ""
  top_k : Nat := 0
  results : List Item := []
  step : Nat := 1
  max_steps : Nat := 0
  last_action : Action := {}
  history : List String := []
  token_usage : List String := []
  found_element_context : Option FoundContext := none
  failed_actions : List (String × Nat) := []
  attempted_action_signatures : List String := []
  recent_extracts : List String := []
  selector_attempts : List (String × List String) := []
  successful_selectors : List (String × String) := []
  action_verification : List VerificationResult := []
  search_flow_state : SearchFlowState := {}
  waiting_for_user_input : Bool := false
  user_input_request : Option UserInputRequest := none
  user_input_response : String := ""
  user_input_flow_active : Bool := false
  deriving Repr, DecidableEq

/-! Action signatures (main.py `make_action_signature`, lines 1101-1118). -/

/-- Truncation of overlong signature values (main.py lines 1113-1116):
`val[:77] + "..."` when longer than 80 characters. -/
def truncateSigValue (s : String) : String :=
  if s.length > 80 then ⟨s.data.take 77⟩ ++ "..." else s

/-- One `key=value` signature part for a field, when the field holds a
non-blank string (main.py lines 1110-1117). -/
def sigPart (name : String) (val : Option String) : List String :=
  match val with
  | none => []
  | some v => if pyStrip v ≠ "" then [name ++ "=" ++ truncateSigValue (pyStrip v)] else []

/-- main.py `make_action_signature` (lines 1101-1118).  The `none` input
models a value that is not a dict or is the empty dict (line 1107). -/
def make_action_signature : Option Action → String
  | none => "invalid"
  | some a =>
      let parts := [a.type.getD ""] ++ sigPart "selector" a.selector ++
        sigPart "text" a.text ++ sigPart "key" a.key
      let joined := joinSep "|" parts
      if joined = "" then "invalid" else joined

/-! Supervisor (main.py `supervisor_node`, lines 2553-2596). -/

/-- Supervisor decision: continue the loop or stop the mission. -/
inductive Decision where
  | continueMission
  | stop
  deriving Repr, DecidableEq

/-- Technical-failure phrases that veto an explicit finish
(main.py line 2559). -/
def technical_failure_terms : List String :=
  ["parsing failed", "json", "error:", "failed to parse"]

/-- main.py `supervisor_node` (lines 2553-2596), as a pure decision
function of the state. -/
def supervisor_node (state : AgentState) : Decision :=
  if state.last_action.type == some "finish" then
    let finish_reason := pyLower (state.last_action.reason.getD "")
    if technical_failure_terms.any (fun t => strContains finish_reason t) then
      .continueMission
    else if state.results.length > 0 then .stop
    else if strContains finish_reason "completed" || strContains finish_reason "success" then
      .stop
    else if state.step ≥ state.max_steps then .stop
    else .continueMission
  else if state.results.length ≥ state.top_k then .stop
  else if state.step > state.max_steps then .stop
  else if state.waiting_for_user_input then .continueMission
  else .continueMission

/-- Modelled from the spec for claim C5: the supervisor decision as a pure
function of `(lastAction, resultCount, targetResultCount, step, maxSteps)`
applying the spec rules in priority order: technical-failure finish always
continues; finish with results stops; finish with success language stops;
other finishes continue while `step < maxSteps` and stop otherwise; enough
results stop; past the step ceiling stops; otherwise continue. -/
def supervisorSpec (lastAction : Action) (resultCount targetResultCount step maxSteps : Nat) :
    Decision :=
  if lastAction.type == some "finish" &&
      technical_failure_terms.any (fun t => strContains (pyLower (lastAction.reason.getD "")) t) then
    .continueMission
  else if lastAction.type == some "finish" && resultCount > 0 then .stop
  else if lastAction.type == some "finish" &&
      (strContains (pyLower (lastAction.reason.getD "")) "completed" ||
       strContains (pyLower (lastAction.reason.getD "")) "success") then
    .stop
  else if lastAction.type == some "finish" then
    if step < maxSteps then .continueMission else .stop
  else if resultCount ≥ targetResultCount then .stop
  else if step > maxSteps then .stop
  else .continueMission

/-! Page model: operations performed against the browser, and an oracle of
their outcomes.  `Except String` models a Python call that may raise, with
the exception text in the error. -/

/-- A page operation performed during one executor pass ("touching the
page").  Reads of the synchronous `page.url` property are not operations. -/
inductive PageOp where
  | click (selector : String)
  | fill (selector : String) (text : String)
  | press (selector : String) (key : String)
  | evaluate (script : String)
  | goto (url : String)
  | screenshot
  | waitTimeout (ms : Nat)
  | inputValue (selector : String)
  | content
  | queryAll (selector : String)
  deriving Repr, DecidableEq

/-- An element match returned by `find_elements_with_text_live`
(main.py lines 2247-2266). -/
structure FoundElement where
  tag_name : String := "unknown"
  suggested_selectors : List String := []
  is_visible : Bool := false
  is_interactive : Bool := false
  is_clickable : Bool := false
  deriving Repr, DecidableEq

/-- Output of `validate_selectors_systematically` (main.py lines 1021-1027). -/
structure ValidationOut where
  working_selectors : List String := []
  failed_selectors : List String := []
  best_selector : Option String := none
  best_element : Option FoundElement := none
  deriving Repr, DecidableEq

/-- Outcome of the external CAPTCHA collaborator
(`solve_captcha_if_present`). -/
structure CaptchaResult where
  found : Bool := false
  solved : Bool := false
  ctype : String := ""
  service : String := ""
  error : String := ""
  deriving Repr, DecidableEq

/-- Outcomes of every page interaction one executor pass may perform.  The
scroll fallback ladder (main.py lines 1803-1889) is collapsed into one
outcome giving the initial and final `pageYOffset`; an error models all
scroll strategies raising (re-raised at line 1897). -/
structure PageOracle where
  click : String → Except String Unit := fun _ => .ok ()
  fill : String → String → Except String Unit := fun _ _ => .ok ()
  press : String → String → Except String Unit := fun _ _ => .ok ()
  scroll : String → Except String (Int × Int) := fun _ => .ok (0, 400)
  find_elements : String → List FoundElement := fun _ => []
  validate : String → List FoundElement → ValidationOut := fun _ _ => {}
  popup_killer : String → Except String Bool := fun _ => .ok false
  popup_enhanced : String → Except String (Option String) := fun _ => .ok none
  popup_fallback : String → Except String (Option String) := fun _ => .ok none
  popup_force : Except String (Option String) := .ok none
  captcha : Except String CaptchaResult := .ok {}
  user_input : Option String := none
  screenshot : Except String Unit := .ok ()
  input_value : String → Except String String := fun _ => .ok ""
  page_url : String := ""
  content_login_failed : Except String Bool := .ok false
  urljoin : String → String → String := fun _ u => u

/-! Executor infrastructure (main.py `execute_action_node`,
lines 1529-2550). -/

/-- Result of the big `try:` block (main.py lines 1698-2513).  `early`
models the bare `return state` statements inside the popup-dismissal branch
(lines 1949, 1993, 2088, 2142); `exn` models an exception reaching the
`except` handler at line 2515, carrying the mutations made so far. -/
inductive TryResult where
  | ok (s : AgentState) (ops : List PageOp)
  | early (s : AgentState) (ops : List PageOp)
  | exn (msg : String) (s : AgentState) (ops : List PageOp)
  deriving Repr, DecidableEq

/-- Which source path an executor pass took. -/
inductive ExecPath where
  | blocked
  | preRaise
  | early
  | executed
  | failed (err : String)
  deriving Repr, DecidableEq

/-- What one call of `execute_action_node` yields: `raised = some msg` models
a Python exception propagating out of the node (state mutations made before
the raise persist, since the dict is mutated in place). -/
structure ExecResult where
  raised : Option String := none
  state : AgentState
  ops : List PageOp := []
  path : ExecPath
  deriving Repr, DecidableEq

/-- History-entry prefix used throughout the node. -/
def stepMsg (step : Nat) (m : String) : String :=
  "Step " ++ toString step ++ ": " ++ m

/-- Alternative strategies suggested on the blocked-duplicate path
(main.py lines 1557-1584). -/
def alternativesFor (sig : String) : List String :=
  if strContains sig "click|selector=input[placeholder=\x27Search for Products\x27]" then
    ["Try: scroll down to find different elements",
     "Try: extract_correct_selector_using_text with text \x27search icon\x27 or \x27search button\x27",
     "Try: press Tab key to navigate to search field",
     "Try: look for menu categories like \x27Mobiles\x27 to navigate instead of searching"]
  else if strContains sig "fill|selector=" then
    ["Try: click on the element first, then fill",
     "Try: extract_correct_selector_using_text to find a different selector",
     "Try: scroll to find alternative input fields",
     "Try: press Tab to navigate to input fields"]
  else if strContains sig "extract_correct_selector_using_text" then
    ["Try: scroll to see different page content",
     "Try: use different search text (single words like \x27button\x27, \x27input\x27, \x27menu\x27)",
     "Try: navigate through visible links or categories instead"]
  else
    ["Try: scroll action to explore the page",
     "Try: extract_correct_selector_using_text with different text",
     "Try: different interaction approach (press keys, navigate menus)"]

/-- The educational history entry of the blocked-duplicate path
(main.py lines 1586-1590). -/
def blockedMessage (sig : String) (cnt step : Nat) : String :=
  stepMsg step ("BLOCKED DUPLICATE ACTION \x60" ++ sig ++ "\x60 (failed " ++
    toString cnt ++ "x before)") ++
  "\nThe LLM should NOT have considered this action - it was warned about banned patterns!" ++
  "\nAUTO-SUGGESTING ALTERNATIVES:" ++
  String.join (((alternativesFor sig).take 2).map (fun alt => "\n  - " ++ alt))

/-- The blocked-duplicate path (main.py lines 1554-1608): history entry,
token-usage entry, step increment; the page is never touched. -/
def blockedResult (sig : String) (cnt : Nat) (s : AgentState) : ExecResult :=
  let s := { s with
    history := s.history ++ [blockedMessage sig cnt s.step],
    token_usage := s.token_usage ++ ["action_blocked_education_" ++ toString s.step] }
  { raised := none, state := { s with step := s.step + 1 }, ops := [], path := .blocked }

/-- Selector shapes treated as "brain-generated" (main.py lines 1618-1628). -/
def brain_generated_patterns : List String :=
  ["input[placeholder=", "input[type=\"text\"]", "input[type=\x27text\x27]",
   "button[type=\"submit\"]", ".search-input", "#search-box", ".search-field",
   "input.search", "[placeholder*=\"search\"]"]

/-- main.py line 1631: the selector matches a brain-generated pattern. -/
def is_brain_generated (selector : String) : Bool :=
  brain_generated_patterns.any (fun p => strContains (pyLower selector) p)

/-- Interaction action types subject to selector checks. -/
def interactionTypes : List String := ["click", "fill", "press"]

/-- Brain-generated-selector validation (main.py lines 1616-1646): returns
the error message raised, if any.  Raises only while the exhaustive-testing
protocol is active with selectors still owed. -/
def brainCheckRaises (a : Action) (ctx : Option FoundContext) : Option String :=
  if (a.type.getD "") ∈ interactionTypes then
    let selector := a.selector.getD ""
    if is_brain_generated selector then
      match ctx with
      | some c =>
          if c.testing_required ∧ c.untested_selectors ≠ [] ∧
              c.current_test_index < c.untested_selectors.length then
            some ("BRAIN-GENERATED SELECTOR DETECTED: You used \x27" ++ selector ++
              "\x27. You MUST use the extracted selector: \x27" ++
              c.untested_selectors.getD c.current_test_index "" ++ "\x27")
          else none
      | none => none
    else none
  else none

/-- Outcome of the mandatory-testing protocol check: raise, or proceed with a
possibly updated testing context. -/
inductive ProtoOutcome where
  | raiseViolation (msg : String)
  | proceed (ctx : Option FoundContext)
  deriving Repr, DecidableEq

/-- Mandatory selector-testing enforcement (main.py lines 1649-1696).  While
selectors remain, only a click/fill/press on exactly the expected selector is
accepted (advancing the index); `extract_correct_selector_using_text` falls
through to its own branch; everything else raises.  Once the index reaches
the list length the `testing_required` flag is cleared. -/
def protocolCheck (a : Action) (ctx : Option FoundContext) : ProtoOutcome :=
  match ctx with
  | none => .proceed none
  | some c =>
      if c.testing_required then
        if c.untested_selectors ≠ [] ∧
            c.current_test_index < c.untested_selectors.length then
          let expected := c.untested_selectors.getD c.current_test_index ""
          if (a.type.getD "") ∈ interactionTypes then
            let current := a.selector.getD ""
            if current = expected then
              .proceed (some { c with current_test_index := c.current_test_index + 1 })
            else
              .raiseViolation ("MANDATORY TESTING VIOLATION: You are REQUIRED to test selector #" ++
                toString (c.current_test_index + 1) ++
                ". EXPECTED SELECTOR: \x27" ++ expected ++ "\x27 YOUR SELECTOR: \x27" ++
                current ++ "\x27. Remaining selectors to test: " ++
                toString (c.untested_selectors.length - c.current_test_index))
          else if a.type ≠ some "extract_correct_selector_using_text" then
            .raiseViolation ("MANDATORY TESTING VIOLATION: You have " ++
              toString (c.untested_selectors.length - c.current_test_index) ++
              " untested selectors for \x27" ++ c.text ++
              "\x27. You MUST test selector #" ++ toString (c.current_test_index + 1) ++
              ": \x27" ++ expected ++ "\x27")
          else .proceed (some c)
        else if c.untested_selectors ≠ [] ∧
            c.current_test_index ≥ c.untested_selectors.length then
          .proceed (some { c with testing_required := false })
        else .proceed (some c)
      else .proceed (some c)

/-! The branches of the big `try:` block, one function per action type. -/

/-- Search-box keywords that set search-flow flags after click/fill/press
(main.py lines 1704, 1773, 1794). -/
def searchFieldTerms : List String := ["search", "input", "query"]

/-- Placeholder values that must be replaced by the user-supplied input
(main.py line 1721). -/
def userInputPlaceholders : List String :=
  ["\x7b\x7bUSER_INPUT\x7d\x7d", "\x7b\x7bPASSWORD\x7d\x7d", "\x7b\x7bEMAIL\x7d\x7d",
   "\x7b\x7bPHONE\x7d\x7d", "\x7b\x7bOTP\x7d\x7d"]

/-- main.py lines 1738-1742: the selector looks like a password field. -/
def passwordSelectorHint (sel : String) : Bool :=
  strContains (pyLower sel) "password" || strContains (pyLower sel) "pass" ||
    sel = "#password" || sel = "[type=\"password\"]" || strContains sel "[type=\"password\"]"

/-- main.py line 1753: the literal text looks like an LLM-generated
password (length over 6, has a digit and an uppercase letter). -/
def looksLikeGeneratedPassword (t : String) : Bool :=
  decide (t.length > 6) && t.data.any Char.isDigit && t.data.any Char.isUpper

/-- User-input resolution of the fill branch (main.py lines 1720-1759):
given the action, the stored user response and request, and the current step
(the state fields this code reads), yields the final text to fill, whether
the stored user response was consumed, and the history entries appended;
errors when a placeholder is used with no response available (line 1729). -/
def resolveFillText (a : Action) (resp : String) (req : Option UserInputRequest)
    (step : Nat) (fill_text : String) :
    Except String (String × Bool × List String) :=
  let sel := a.selector.getD ""
  let reqIsPassword := (req.map (fun r => r.input_type)) = some "password"
  if fill_text ∈ userInputPlaceholders then
    if resp ≠ "" then
      .ok (resp, true, [stepMsg step "Using user-provided input via placeholder"])
    else
      .error ("Placeholder " ++ fill_text ++ " requires user input but none available")
  else if resp ≠ "" ∧ fill_text = resp then
    .ok (fill_text, true, [stepMsg step "Using user-provided input directly"])
  else if resp ≠ "" ∧ passwordSelectorHint sel ∧ reqIsPassword then
    .ok (resp, true, [stepMsg step "FORCED user password instead of LLM-generated value"])
  else if resp ≠ "" ∧ reqIsPassword ∧ looksLikeGeneratedPassword fill_text then
    .ok (resp, true, [stepMsg step "OVERRODE suspicious password pattern with user input"])
  else
    .ok (fill_text, false, [])

/-- The `click` branch (main.py lines 1699-1707). -/
def clickBranch (o : PageOracle) (a : Action) (s : AgentState) : TryResult :=
  match a.selector with
  | none => .exn "KeyError: selector" s []
  | some sel =>
      match o.click sel with
      | .error e => .exn e s [.click sel]
      | .ok _ =>
          let s := if searchFieldTerms.any (fun t => strContains (pyLower sel) t) then
              { s with search_flow_state := { s.search_flow_state with clicked := true } }
            else s
          .ok s [.click sel]

/-- The `fill` branch (main.py lines 1708-1787), including user-input
consumption and the one-shot gate clearing after a successful fill. -/
def fillBranch (o : PageOracle) (a : Action) (s : AgentState) : TryResult :=
  match a.text with
  | none => .exn "KeyError: text" s []
  | some ft0 =>
      match resolveFillText a s.user_input_response s.user_input_request s.step ft0 with
      | .error e => .exn e s []
      | .ok (ft, used, hist) =>
          let s := { s with history := s.history ++ hist }
          let waitMs : Nat :=
            if strContains (pyLower (a.selector.getD "")) "password" || used then 2000 else 1000
          match a.selector with
          | none => .exn "KeyError: selector" s [.waitTimeout waitMs]
          | some sel =>
              match o.fill sel ft with
              | .error e => .exn e s [.waitTimeout waitMs, .fill sel ft]
              | .ok _ =>
                  let s := if searchFieldTerms.any (fun t => strContains (pyLower sel) t) then
                      { s with search_flow_state := { s.search_flow_state with filled := true } }
                    else s
                  let s := if used then
                      { s with
                          user_input_response := ""
                          user_input_request := none
                          user_input_flow_active := false
                          history := s.history ++
                            [stepMsg s.step "User input successfully used in form field, flow complete"] }
                    else s
                  .ok s [.waitTimeout waitMs, .fill sel ft, .waitTimeout 500]

/-- The `press` branch (main.py lines 1788-1797). -/
def pressBranch (o : PageOracle) (a : Action) (s : AgentState) : TryResult :=
  match a.selector with
  | none => .exn "KeyError: selector" s []
  | some sel =>
      match a.key with
      | none => .exn "KeyError: key" s []
      | some key =>
          match o.press sel key with
          | .error e => .exn e s [.press sel key]
          | .ok _ =>
              let s := if a.key = some "Enter" &&
                  searchFieldTerms.any (fun t => strContains (pyLower sel) t) then
                  { s with search_flow_state := { s.search_flow_state with submitted := true } }
                else s
              .ok s [.press sel key]

/-- The `scroll` branch (main.py lines 1798-1897): the fallback ladder is
collapsed into the oracle outcome; failure appends a history entry and
re-raises (lines 1894-1897). -/
def scrollBranch (o : PageOracle) (a : Action) (s : AgentState) : TryResult :=
  let dir := a.direction.getD "down"
  match o.scroll dir with
  | .error e =>
      .exn e { s with history := s.history ++
        [stepMsg s.step ("Scroll " ++ dir ++ " failed - " ++ e)] } [.evaluate "scroll"]
  | .ok (before, final) =>
      .ok { s with history := s.history ++
        [stepMsg s.step ("Scroll " ++ dir ++ " completed - moved " ++
          toString (final - before).natAbs ++ "px (from " ++ toString before ++
          " to " ++ toString final ++ ")")] }
        [.evaluate "scroll", .waitTimeout 1000]

/-- The `extract` branch (main.py lines 1898-1904): relative URLs are
rewritten against the current page URL, then the items are appended to
`results`. -/
def extractBranch (o : PageOracle) (a : Action) (s : AgentState) : TryResult :=
  let items := a.items.map (fun it =>
    match it.url with
    | some u => { it with url := some (o.urljoin o.page_url u) }
    | none => it)
  .ok { s with results := s.results ++ items } []

/-- Common dismissal texts that enable the popup-killer strategy
(main.py lines 1913-1916). -/
def common_dismiss_texts : List String :=
  ["accept", "accept all", "accept cookies", "agree", "ok", "okay", "yes",
   "close", "dismiss", "no thanks", "not now", "×", "✕", "got it"]

/-- The `dismiss_popup_using_text` branch (main.py lines 1905-2148): four
strategies in order, each returning the state early (without the step
increment) on success; raises when all fail. -/
def dismissPopupBranch (o : PageOracle) (a : Action) (s : AgentState) : TryResult :=
  let text := a.text.getD ""
  if text = "" then
    .exn "No text provided for dismiss_popup_using_text action" s []
  else
    let useKiller := common_dismiss_texts.any (fun d => strContains (pyLower text) d)
    let ops1 : List PageOp := if useKiller then [.evaluate "popup_killer"] else []
    let killerClicked := useKiller &&
      (match o.popup_killer text with | .ok true => true | _ => false)
    if killerClicked then
      .early { s with history := s.history ++
        [stepMsg s.step ("Popup dismissed using popup killer for text \x27" ++ text ++ "\x27")] }
        (ops1 ++ [.waitTimeout 1000])
    else
      let ops2 := ops1 ++ [.evaluate "find_elements_live"]
      match o.popup_enhanced text with
      | .ok (some sel) =>
          .early { s with history := s.history ++
            [stepMsg s.step ("Popup dismissed by clicking element with text \x27" ++ text ++
              "\x27 using selector \x27" ++ sel ++ "\x27")] }
            (ops2 ++ [.click sel, .waitTimeout 1000])
      | _ =>
          let ops3 := ops2 ++ [.evaluate "fallback_popup"]
          match o.popup_fallback text with
          | .ok (some info) =>
              .early { s with history := s.history ++
                [stepMsg s.step ("Popup dismissed using fallback detection for text \x27" ++
                  text ++ "\x27 - clicked " ++ info)] }
                (ops3 ++ [.waitTimeout 1000])
          | _ =>
              let ops4 := ops3 ++ [.evaluate "force_dismiss"]
              match o.popup_force with
              | .ok (some pat) =>
                  .early { s with history := s.history ++
                    [stepMsg s.step ("Popup force dismissed using pattern \x27" ++ pat ++ "\x27")] }
                    (ops4 ++ [.waitTimeout 1000])
              | _ =>
                  .exn ("Could not find or dismiss popup with text \x27" ++ text ++
                    "\x27 using any strategy") s ops4

/-- The `solve_captcha` branch (main.py lines 2150-2199): every outcome,
including solver errors, is logged and swallowed. -/
def solveCaptchaBranch (o : PageOracle) (s : AgentState) : TryResult :=
  match o.captcha with
  | .ok r =>
      if r.found then
        if r.solved then
          .ok { s with history := s.history ++
            [stepMsg s.step ("CAPTCHA SOLVED: " ++ r.ctype ++ " solved using " ++
              r.service ++ " service")] } [.evaluate "captcha", .waitTimeout 2000]
        else
          .ok { s with history := s.history ++
            [stepMsg s.step ("CAPTCHA SOLVING FAILED: " ++ r.ctype ++ " - " ++ r.error)] }
            [.evaluate "captcha"]
      else
        .ok { s with history := s.history ++
          [stepMsg s.step "NO CAPTCHA DETECTED: Page scan complete - no CAPTCHA challenges found"] }
          [.evaluate "captcha"]
  | .error e =>
      .ok { s with history := s.history ++
        [stepMsg s.step ("CAPTCHA SOLVER ERROR: Unexpected error occurred - " ++ e)] }
        [.evaluate "captcha"]

/-- Code-like tokens that invalidate a search text (main.py line 2213). -/
def suspicious_patterns : List String :=
  ["<", ">", "\x7b", "\x7d", "class=", "id=", "xpath", "css", "selector"]

/-- Search-related keywords for the `detected` flow flag and the testing
context (main.py lines 2294, 2338). -/
def searchDetectTerms : List String := ["search", "input", "query", "find"]

/-- Append-if-absent fold used to deduplicate selector lists
(main.py lines 2280-2283, 2306-2319). -/
def appendUnique (acc : List String) (l : List String) : List String :=
  l.foldl (fun acc sel => if sel ∈ acc then acc else acc ++ [sel]) acc

/-- The `extract_correct_selector_using_text` branch (main.py lines
2201-2403): text validation, loop prevention, live-DOM search, selector
validation, and installation of the mandatory-testing context; when no
element matches, only a history entry is appended. -/
def extractSelectorBranch (o : PageOracle) (a : Action) (s : AgentState) : TryResult :=
  let text := a.text.getD ""
  if text = "" then
    .exn "No text provided for extract_correct_selector_using_text action"
      { s with history := s.history ++
        [stepMsg s.step "FAILED - No text provided for element search"] } []
  else
    let s := if text.length > 100 then
        { s with history := s.history ++
          [stepMsg s.step ("WARNING - Text too long for screenshot extraction: \x27" ++
            String.mk (text.data.take 50) ++ "...\x27"),
           "TIP: Use shorter, specific text visible in screenshot"] }
      else s
    if suspicious_patterns.any (fun p => strContains (pyLower text) p) then
      .exn ("Invalid text for screenshot extraction: \x27" ++ text ++
        "\x27 appears to be code, not visible text from screenshot")
        { s with history := s.history ++
          [stepMsg s.step ("BLOCKED - Text appears to be HTML/CSS code, not screenshot text: \x27" ++
            text ++ "\x27")] } []
    else if text ∈ lastN 3 s.recent_extracts then
      let loopPrevented : TryResult :=
        .exn ("Loop detected: Already extracted selectors for \x27" ++ text ++
          "\x27 in recent steps. Use existing selectors instead of extracting again!")
          { s with history := s.history ++
            [stepMsg s.step ("LOOP PREVENTION - Already extracted \x27" ++ text ++
              "\x27 recently. Use existing selectors!")] } []
      match s.found_element_context with
      | some c =>
          if c.text = text ∧ c.testing_required ∧ c.untested_selectors ≠ [] then
            let untested_count := c.untested_selectors.length - c.current_test_index
            .exn ("TESTING INCOMPLETE: You must test the remaining " ++
              toString untested_count ++ " selectors for \x27" ++ text ++
              "\x27 before extracting again!")
              { s with history := s.history ++
                [stepMsg s.step ("MANDATORY TESTING INCOMPLETE - You have " ++
                  toString untested_count ++ " untested selectors for \x27" ++ text ++
                  "\x27. Complete testing first!")] } []
          else loopPrevented
      | none => loopPrevented
    else
      let result := o.find_elements text
      if result ≠ [] then
        let limited := result.take 10
        let all_selectors := limited.foldl (fun acc m => acc ++ m.suggested_selectors) []
        let v := o.validate text limited
        let prev := (s.selector_attempts.lookup text).getD []
        let attempts :=
          dictSet s.selector_attempts text
            (appendUnique prev (v.failed_selectors ++ v.working_selectors))
        let s := { s with selector_attempts := attempts }
        let s := match v.working_selectors with
          | [] => s
          | w :: _ => { s with successful_selectors := dictSet s.successful_selectors text w }
        let s := if searchDetectTerms.any (fun t => strContains (pyLower text) t) then
            { s with search_flow_state := { s.search_flow_state with detected := true } }
          else s
        let selectors_to_test := (appendUnique [] (v.working_selectors ++ all_selectors)).take 15
        let s := { s with found_element_context := some {
          text := text, untested_selectors := selectors_to_test,
          current_test_index := 0, testing_required := true } }
        let s := { s with history := s.history ++
          [stepMsg s.step ("EXTRACTION COMPLETE - MANDATORY TESTING REQUIRED! Extracted for text: \x27" ++
            text ++ "\x27. Found " ++ toString limited.length ++ " elements with " ++
            toString selectors_to_test.length ++ " selectors to test, in exact order.")] }
        let s := { s with recent_extracts := lastN 5 (s.recent_extracts ++ [text]) }
        .ok s [.evaluate "find_elements_live"]
      else
        .ok { s with history := s.history ++
          [stepMsg s.step ("NO ELEMENTS FOUND! Text: \x27" ++ text ++
            "\x27 - No elements contain this text in their attributes")] }
          [.evaluate "find_elements_live"]

/-- The `request_user_input` branch (main.py lines 2405-2469): publishes the
request, waits on the gate; a timeout clears the flow flags and raises. -/
def requestUserInputBranch (o : PageOracle) (a : Action) (s : AgentState) : TryResult :=
  let input_type := a.input_type.getD "text"
  let prompt := a.prompt.getD "Please provide input"
  let req : UserInputRequest :=
    { input_type := input_type, prompt := prompt, is_sensitive := a.is_sensitive }
  let s := { s with
    user_input_request := some req
    waiting_for_user_input := true
    user_input_flow_active := true
    history := s.history ++ [stepMsg s.step ("WAITING FOR USER INPUT - " ++ prompt)] }
  match o.user_input with
  | some resp =>
      .ok { s with
        user_input_response := resp
        waiting_for_user_input := false
        history := s.history ++
          [stepMsg s.step ("USER INPUT RECEIVED - " ++ input_type ++
            " provided, ready for next action")] } []
  | none =>
      .exn ("User input request timed out after 5 minutes: " ++ prompt)
        { s with
          waiting_for_user_input := false
          user_input_flow_active := false
          history := s.history ++
            [stepMsg s.step "USER INPUT TIMEOUT - Continuing without input"] } []

/-- The `close_popup` branch (main.py lines 2471-2496): overlay clicks and
input clearing, then an unconditional raise. -/
def closePopupBranch (a : Action) (s : AgentState) : TryResult :=
  .exn ("No parent element found for text \x27" ++
    (match a.text with | some t => t | none => "None") ++ "\x27.") s
    [.evaluate "close_popup_overlays", .queryAll "input"]

/-- The error message of the fallthrough `else` arm (main.py line 2498). -/
def unknownTypeMsg (a : Action) : String :=
  "No element found with text \x27" ++
    (match a.text with | some t => t | none => "None") ++ "\x27."

/-- The big `try:` block (main.py lines 1698-2498), dispatching on the
action type; unknown types (including `finish`) raise at line 2498. -/
def tryBody (o : PageOracle) (a : Action) (s : AgentState) : TryResult :=
  if a.type = some "click" then clickBranch o a s
  else if a.type = some "fill" then fillBranch o a s
  else if a.type = some "press" then pressBranch o a s
  else if a.type = some "scroll" then scrollBranch o a s
  else if a.type = some "extract" then extractBranch o a s
  else if a.type = some "dismiss_popup_using_text" then dismissPopupBranch o a s
  else if a.type = some "solve_captcha" then solveCaptchaBranch o s
  else if a.type = some "extract_correct_selector_using_text" then extractSelectorBranch o a s
  else if a.type = some "request_user_input" then requestUserInputBranch o a s
  else if a.type = some "close_popup" then closePopupBranch a s
  else .exn (unknownTypeMsg a) s []

/-! Verification (main.py `verify_action_from_screenshot`,
lines 1029-1098) and post-execution bookkeeping. -/

/-- main.py `verify_action_from_screenshot` (lines 1029-1098): a screenshot
failure short-circuits to the `except` at line 1095 (no verification-history
update); otherwise the result is classified per action type and appended to
`action_verification` (capped at the last 20). -/
def verify_action_from_screenshot (o : PageOracle) (action : Action) (s : AgentState) :
    VerificationResult × AgentState :=
  match o.screenshot with
  | .error e =>
      ({ verification_notes := ["Verification error: " ++ e] }, s)
  | .ok _ =>
      let base : VerificationResult := { screenshot_ok := true }
      let vres :=
        match action.type with
        | some "click" =>
            if o.page_url ≠ s.url then
              { base with
                changes_detected := true
                verification_notes := ["URL changed: " ++ s.url ++ " -> " ++ o.page_url] }
            else base
        | some "fill" =>
            match action.selector with
            | some sel =>
                match o.input_value sel with
                | .ok field_value =>
                    let expected := action.text.getD ""
                    if strContains field_value expected then
                      { base with
                        success := true
                        verification_notes :=
                          ["Input field contains expected text: \x27" ++ expected ++ "\x27"] }
                    else
                      { base with verification_notes :=
                          ["Input field value \x27" ++ field_value ++
                            "\x27 does not match expected \x27" ++ expected ++ "\x27"] }
                | .error _ =>
                    { base with verification_notes := ["Could not verify input field value"] }
            | none => base
        | some "scroll" =>
            { base with
              success := true
              changes_detected := true
              verification_notes := ["Scroll action completed"] }
        | some "press" =>
            if o.page_url ≠ s.url then
              { base with
                success := true
                changes_detected := true
                verification_notes :=
                  ["Key press triggered navigation: " ++ s.url ++ " -> " ++ o.page_url] }
            else base
        | _ => base
      (vres, { s with action_verification := lastN 20 (s.action_verification ++ [vres]) })

/-- The post-action login-failure probe (main.py lines 2522-2546): only for
click/press actions whose signature has a login keyword; its own errors are
swallowed. -/
def loginFailureCheck (o : PageOracle) (action : Action) (sig : String) (s : AgentState) :
    AgentState × List PageOp :=
  if (action.type == some "click" || action.type == some "press") &&
      (["login", "submit", "sign", "enter"].any (fun kw => strContains (pyLower sig) kw)) then
    match o.content_login_failed with
    | .ok true =>
        ({ s with history := s.history ++
          [stepMsg s.step "LOGIN FAILURE DETECTED - The login attempt appears to have failed. The page still shows login form or error messages."] },
         [.waitTimeout 2000, .content])
    | _ => (s, [.waitTimeout 2000, .content])
  else (s, [])

/-- The success-path history entry (main.py lines 2508-2513). -/
def executedMessage (sig : String) (vres : VerificationResult) (step : Nat) : String :=
  let indicator := if vres.success || vres.changes_detected then "OK" else "WARN"
  let notes := joinSep "; " vres.verification_notes
  let summary := if notes ≠ "" then " | Verification: " ++ notes else ""
  stepMsg step (indicator ++ " Executed \x60" ++ sig ++ "\x60 successfully." ++ summary)

/-- The failure-path history entry (main.py line 2518). -/
def failedMessage (sig err : String) (step : Nat) : String :=
  stepMsg step ("FAILED \x60" ++ sig ++ "\x60 error=\x27" ++ err ++
    "\x27 (will avoid repeating).")

/-- The URL refresh after a successful action (main.py lines 2502-2505). -/
def urlRefresh (o : PageOracle) (s2 : AgentState) : AgentState :=
  if o.page_url ≠ s2.url then { s2 with url := o.page_url } else s2

/-- Processing after the `try:` block (main.py lines 2499-2550): the success
path verifies and logs, the exception path records the failure into
`failed_actions`; both run the login probe and advance `step` by one.  The
early popup-dismissal returns (lines 1949-2142) skip all of it. -/
def afterTry (o : PageOracle) (action : Action) (sig : String) :
    TryResult → ExecResult
  | .early s ops => { raised := none, state := s, ops := ops, path := .early }
  | .ok s ops =>
      let vres := (verify_action_from_screenshot o action s).1
      let s2 := urlRefresh o (verify_action_from_screenshot o action s).2
      let s2 := { s2 with history := s2.history ++ [executedMessage sig vres s2.step] }
      let (s3, ops2) := loginFailureCheck o action sig s2
      { raised := none, state := { s3 with step := s3.step + 1 },
        ops := ops ++ [.screenshot, .waitTimeout 2000] ++ ops2, path := .executed }
  | .exn e s ops =>
      let s2 := { s with
        history := s.history ++ [failedMessage sig (firstLine e) s.step]
        failed_actions := dictIncr s.failed_actions sig }
      let (s3, ops2) := loginFailureCheck o action sig s2
      { raised := none, state := { s3 with step := s3.step + 1 },
        ops := ops ++ ops2, path := .failed e }

/-- main.py `execute_action_node` (lines 1529-2550): signature and
duplicate check, brain-generated-selector validation, mandatory-testing
enforcement (both raising out of the node, before the `try:`), then the
`try:` block and its aftermath. -/
def execute_action_node (o : PageOracle) (state : AgentState) : ExecResult :=
  let action := state.last_action
  let sig := make_action_signature (some action)
  let s := { state with
    attempted_action_signatures := state.attempted_action_signatures ++ [sig] }
  match s.failed_actions.lookup sig with
  | some cnt => blockedResult sig cnt s
  | none =>
      match brainCheckRaises action s.found_element_context with
      | some msg => { raised := some msg, state := s, ops := [], path := .preRaise }
      | none =>
          match protocolCheck action s.found_element_context with
          | .raiseViolation msg =>
              { raised := some msg, state := s, ops := [], path := .preRaise }
          | .proceed ctx =>
              let s := { s with found_element_context := ctx }
              afterTry o action sig (tryBody o action s)

/-- Tail of `agent_reasoning_node` (main.py lines 1511 and 1523-1527): the
proposed action is stored into `last_action`, then any
`found_element_context` is cleared unconditionally - there is no early
return in the node - before control passes to the executor. -/
def agent_reasoning_store_and_clear (proposed : Action) (s : AgentState) : AgentState :=
  let s := { s with last_action := proposed }
  if s.found_element_context.isSome then { s with found_element_context := none } else s

/-- A concrete oracle used to instantiate witnesses. -/
def oracleA : PageOracle := {}

/-- Lexicographic comparison on character lists. -/
def lexLe : List Char → List Char → Bool
  | [], _ => true
  | _ :: _, [] => false
  | a :: as, b :: bs =>
      if a.toNat < b.toNat then true
      else if b.toNat < a.toNat then false
      else lexLe as bs

/-- Lexicographic comparison on strings. -/
def strLe (x y : String) : Bool := lexLe x.data y.data

/-- Insertion of a string into a lexicographically sorted list. -/
def insertSorted (x : String) : List String → List String
  | [] => [x]
  | y :: ys => if strLe x y then x :: y :: ys else y :: insertSorted x ys

/-- Lexicographic insertion sort on strings. -/
def sortStrings (l : List String) : List String := l.foldr insertSorted []

/-- Modelled from the spec's words for claim C7: the signature as
`type + "|" + sorted list of field=value entries` with the entries sorted,
to be compared with the source's `make_action_signature`. -/
def sortedSignatureSpec (a : Action) : String :=
  (a.type.getD "") ++ "|" ++
    joinSep "|" (sortStrings
      (sigPart "selector" a.selector ++ sigPart "text" a.text ++ sigPart "key" a.key))

/-- Concrete oracle for the C6 witness. -/
def oracleC6 : PageOracle :=
  { input_value := fun _ => .ok "hello world", page_url := "https://b" }

/-- Concrete mission state for claim C2: an extraction has just installed
the mandatory-testing context with one untested selector. -/
def c2StateAfterExtract : AgentState :=
  { step := 4
    found_element_context := some
      { text := "Search", untested_selectors := ["#extracted-1"],
        current_test_index := 0, testing_required := true } }

/-- The state carried by a `TryResult`. -/
def TryResult.stateOf : TryResult → AgentState
  | .ok s _ => s
  | .early s _ => s
  | .exn _ s _ => s

/-- Whether a `TryResult` is an early return. -/
def TryResult.isEarly : TryResult → Bool
  | .early _ _ => true
  | _ => false

/-- A protocol-violation step: the proposed action trips the
brain-generated-selector check or the mandatory-testing enforcement. -/
def protocolViolationStep (s : AgentState) : Prop :=
  (brainCheckRaises s.last_action s.found_element_context).isSome = true ∨
  ∃ m, protocolCheck s.last_action s.found_element_context = .raiseViolation m

/-- Concrete state for the C10 witness. -/
def c10State : AgentState :=
  { step := 8
    last_action :=
      { type := some "extract_correct_selector_using_text", text := some "Checkout" } }

/-- An oracle whose click raises, for the C4 witness. -/
def oracleFail : PageOracle := { click := fun _ => .error "Timeout 5000ms exceeded" }

/-- Oracles and state for the C8 witness: a password placeholder fill with a
stored user response. -/
def c8Action : Action :=
  { type := some "fill", selector := some "#pw", text := some "\x7b\x7bPASSWORD\x7d\x7d" }

def c8State : AgentState :=
  { step := 6
    last_action := c8Action
    user_input_response := "hunter2"
    user_input_request := some { input_type := "password", prompt := "Enter password" }
    user_input_flow_active := true }

/-- An oracle that finds no elements, for the C10 witness. -/
def oracleNoElems : PageOracle := { find_elements := fun _ => [] }

/-! Helper lemmas. -/

/-- Every branch of the alternative-suggestion table offers at least two
concrete strategies. -/
theorem alternativesFor_two_le (sig : String) : 2 ≤ (alternativesFor sig).length := by
  unfold alternativesFor
  split <;> try split
  all_goals first
    | simp
    | (split <;> simp)

/-! Claim C1. -/

/-- Claim C1: when the proposed action's signature is already in
`failedActions`, the executor performs no page operation during the step,
appends one history entry that lists concrete alternative strategies (the
first two of the suggestion table), and increments `step` by exactly 1
before returning without raising. -/
theorem C1_blocked_duplicate (o : PageOracle) (s : AgentState) (cnt : Nat)
    (h : s.failed_actions.lookup (make_action_signature (some s.last_action)) = some cnt) :
    (execute_action_node o s).ops = [] ∧
    (execute_action_node o s).raised = none ∧
    (execute_action_node o s).state.step = s.step + 1 ∧
    (execute_action_node o s).state.history =
      s.history ++ [blockedMessage (make_action_signature (some s.last_action)) cnt s.step] ∧
    2 ≤ (alternativesFor (make_action_signature (some s.last_action))).length := by
  unfold execute_action_node
  simp only [h, blockedResult]
  repeat' apply And.intro
  all_goals first | rfl | trivial | exact alternativesFor_two_le _

/-- Witness for C1 at a concrete input: a scroll action whose signature
already failed twice. -/
theorem C1_blocked_duplicate_witness :
    (execute_action_node oracleA
        { step := 5, failed_actions := [("scroll", 2)],
          last_action := { type := some "scroll" } }).ops = [] ∧
    (execute_action_node oracleA
        { step := 5, failed_actions := [("scroll", 2)],
          last_action := { type := some "scroll" } }).raised = none ∧
    (execute_action_node oracleA
        { step := 5, failed_actions := [("scroll", 2)],
          last_action := { type := some "scroll" } }).state.step = 5 + 1 ∧
    (execute_action_node oracleA
        { step := 5, failed_actions := [("scroll", 2)],
          last_action := { type := some "scroll" } }).state.history =
      [] ++ [blockedMessage (make_action_signature
        (some { type := some "scroll" })) 2 5] ∧
    2 ≤ (alternativesFor (make_action_signature (some { type := some "scroll" }))).length :=
  C1_blocked_duplicate oracleA
    { step := 5, failed_actions := [("scroll", 2)],
      last_action := { type := some "scroll" } } 2 (by decide)

/-! Claim C9. -/

/-- Claim C9: on the blocked-duplicate path the `failedActions` mapping is
left unchanged (the count is read, not incremented), and `results`,
`recentExtracts`, `selectorAttempts` and `successfulSelectors` are unchanged
too; only `history`, `attemptedSignatures`, the token-usage log and `step`
are modified. -/
theorem C9_blocked_frame (o : PageOracle) (s : AgentState) (cnt : Nat)
    (h : s.failed_actions.lookup (make_action_signature (some s.last_action)) = some cnt) :
    (execute_action_node o s).state.failed_actions = s.failed_actions ∧
    (execute_action_node o s).state.results = s.results ∧
    (execute_action_node o s).state.recent_extracts = s.recent_extracts ∧
    (execute_action_node o s).state.selector_attempts = s.selector_attempts ∧
    (execute_action_node o s).state.successful_selectors = s.successful_selectors ∧
    (execute_action_node o s).state.found_element_context = s.found_element_context ∧
    (execute_action_node o s).state.search_flow_state = s.search_flow_state ∧
    (execute_action_node o s).state.history =
      s.history ++ [blockedMessage (make_action_signature (some s.last_action)) cnt s.step] ∧
    (execute_action_node o s).state.attempted_action_signatures =
      s.attempted_action_signatures ++ [make_action_signature (some s.last_action)] ∧
    (execute_action_node o s).state.token_usage =
      s.token_usage ++ ["action_blocked_education_" ++ toString s.step] ∧
    (execute_action_node o s).state.step = s.step + 1 := by
  unfold execute_action_node
  simp only [h, blockedResult]
  repeat' apply And.intro
  all_goals first | rfl | trivial

/-- Witness for C9 at a concrete input. -/
theorem C9_blocked_frame_witness :
    (execute_action_node oracleA
        { step := 9, failed_actions := [("click|selector=#go", 1)], results := [{ title := "r" }],
          recent_extracts := ["Search"],
          last_action := { type := some "click", selector := some "#go" } }).state.failed_actions =
      [("click|selector=#go", 1)] ∧
    (execute_action_node oracleA
        { step := 9, failed_actions := [("click|selector=#go", 1)], results := [{ title := "r" }],
          recent_extracts := ["Search"],
          last_action := { type := some "click", selector := some "#go" } }).state.step = 9 + 1 :=
  let s : AgentState :=
    { step := 9, failed_actions := [("click|selector=#go", 1)], results := [{ title := "r" }],
      recent_extracts := ["Search"],
      last_action := { type := some "click", selector := some "#go" } }
  let r := C9_blocked_frame oracleA s 1 (by decide)
  ⟨r.1, r.2.2.2.2.2.2.2.2.2.2⟩

/-! Claim C7: the action-signature contract. -/

/-- Counterexample to C7 as stated: for a press action carrying a selector
and a key, the source emits the entries in the fixed order selector, text,
key, not sorted; the sorted form demanded by the claim differs. -/
theorem C7_counterexample :
    make_action_signature
        (some { type := some "press", selector := some "#a", key := some "Enter" }) =
      "press|selector=#a|key=Enter" ∧
    sortedSignatureSpec
        { type := some "press", selector := some "#a", key := some "Enter" } =
      "press|key=Enter|selector=#a" ∧
    make_action_signature
        (some { type := some "press", selector := some "#a", key := some "Enter" }) ≠
      sortedSignatureSpec
        { type := some "press", selector := some "#a", key := some "Enter" } := by
  refine ⟨by decide, by decide, by decide⟩

/-- Length law for signature-value truncation: the emitted value keeps at
most 80 characters (77 of the original plus the ellipsis). -/
theorem truncateSigValue_length (v : String) :
    (truncateSigValue v).length = min v.length 80 := by
  unfold truncateSigValue
  split
  · rename_i h
    have h1 : (String.mk (v.data.take 77) ++ "...").length =
        (String.mk (v.data.take 77)).length + "...".length := String.length_append _ _
    have h2 : (String.mk (v.data.take 77)).length = (v.data.take 77).length := rfl
    have h3 : (v.data.take 77).length = min 77 v.data.length := List.length_take _ _
    have h4 : v.length = v.data.length := rfl
    have h5 : ("..." : String).length = 3 := rfl
    omega
  · rename_i h
    have h4 : v.length = v.data.length := rfl
    omega

/-- Claim C7, amended: the signature is deterministic in the four fields
type/selector/text/key and total; a malformed or empty action maps to the
sentinel "invalid"; a well-formed action maps to a non-empty string whose
`field=value` entries appear in the fixed order selector, text, key (not
sorted), each value stripped and kept to at most 80 characters. -/
theorem C7_amended :
    (∀ a b : Action, a.type = b.type → a.selector = b.selector → a.text = b.text →
        a.key = b.key →
        make_action_signature (some a) = make_action_signature (some b)) ∧
    make_action_signature none = "invalid" ∧
    (∀ a : Action, make_action_signature (some a) ≠ "") ∧
    (∀ t sel txt k : String, pyStrip sel ≠ "" → pyStrip txt ≠ "" → pyStrip k ≠ "" →
        make_action_signature
            (some { type := some t, selector := some sel, text := some txt, key := some k }) =
          t ++ "|" ++ ("selector" ++ "=" ++ truncateSigValue (pyStrip sel)) ++ "|" ++
            ("text" ++ "=" ++ truncateSigValue (pyStrip txt)) ++ "|" ++
            ("key" ++ "=" ++ truncateSigValue (pyStrip k))) ∧
    (∀ v : String, (truncateSigValue v).length = min v.length 80) := by
  refine ⟨?_, rfl, ?_, ?_, truncateSigValue_length⟩
  · intro a b h1 h2 h3 h4
    simp only [make_action_signature]
    rw [h1, h2, h3, h4]
  · intro a
    simp only [make_action_signature]
    split
    · simp
    · rename_i h; exact h
  · intro t sel txt k h1 h2 h3
    simp only [make_action_signature]
    simp only [sigPart, h1, h2, h3, if_pos, ne_eq, not_false_eq_true, if_true]
    have hjoin : joinSep "|"
        ([Option.getD (some t) ""] ++ ["selector" ++ "=" ++ truncateSigValue (pyStrip sel)] ++
          ["text" ++ "=" ++ truncateSigValue (pyStrip txt)] ++
          ["key" ++ "=" ++ truncateSigValue (pyStrip k)]) =
        t ++ "|" ++ ("selector" ++ "=" ++ truncateSigValue (pyStrip sel)) ++ "|" ++
          ("text" ++ "=" ++ truncateSigValue (pyStrip txt)) ++ "|" ++
          ("key" ++ "=" ++ truncateSigValue (pyStrip k)) := by
      simp [joinSep]
    rw [hjoin]
    split
    · rename_i hempty
      exfalso
      have hlen := congrArg String.length hempty
      simp only [String.length_append] at hlen
      have e1 : ("|" : String).length = 1 := rfl
      have e2 : ("selector" : String).length = 8 := rfl
      have e3 : ("=" : String).length = 1 := rfl
      have e4 : ("text" : String).length = 4 := rfl
      have e5 : ("key" : String).length = 3 := rfl
      have e6 : ("" : String).length = 0 := rfl
      omega
    · rfl

/-- Witness for C7's amended theorem at concrete inputs. -/
theorem C7_amended_witness :
    make_action_signature
        (some { type := some "press", selector := some "#a", text := some " q ",
                key := some "Enter" }) =
      "press" ++ "|" ++ ("selector" ++ "=" ++ truncateSigValue (pyStrip "#a")) ++ "|" ++
        ("text" ++ "=" ++ truncateSigValue (pyStrip " q ")) ++ "|" ++
        ("key" ++ "=" ++ truncateSigValue (pyStrip "Enter")) :=
  C7_amended.2.2.2.1 "press" "#a" " q " "Enter" (by decide) (by decide) (by decide)

/-! Claim C5: the supervisor decision. -/

/-- Claim C5: the supervisor's decision is a pure function of
`(lastAction, results, targetResultCount, step, maxSteps)` applying the
spec rules in priority order: a technical-failure finish always continues
(even with results present); finish with non-empty results stops; finish
with success/completion language stops with zero results; other finishes
continue while `step < maxSteps` and stop at the ceiling; enough results
stop regardless of the proposed action; `step > maxSteps` stops; otherwise
continue. -/
theorem C5_supervisor_priority (s : AgentState) :
    supervisor_node s =
      supervisorSpec s.last_action s.results.length s.top_k s.step s.max_steps := by
  unfold supervisor_node supervisorSpec
  split_ifs <;> simp_all [Bool.and_eq_true]
  all_goals omega

/-! Claim C6: the per-type verifier classification. -/

/-- Claim C6: with the audit screenshot succeeding, the verifier classifies
per action type: for fill, success holds exactly when the filled text is a
substring of the field's current value, and a mismatch yields a note (the
function is total, so no exception); for press, success and changesDetected
are both true exactly when the URL changed; for scroll, both are
unconditionally true; for click, only changesDetected is set on a URL
change and success is never claimed. -/
theorem C6_verifier_classification (o : PageOracle) (s : AgentState) (a : Action)
    (hshot : o.screenshot = .ok ()) :
    (∀ sel v, a.type = some "fill" → a.selector = some sel → o.input_value sel = .ok v →
        ((verify_action_from_screenshot o a s).1.success = strContains v (a.text.getD "") ∧
         (strContains v (a.text.getD "") = false →
            (verify_action_from_screenshot o a s).1.verification_notes ≠ []))) ∧
    (a.type = some "press" →
        (verify_action_from_screenshot o a s).1.success = decide (o.page_url ≠ s.url) ∧
        (verify_action_from_screenshot o a s).1.changes_detected = decide (o.page_url ≠ s.url)) ∧
    (a.type = some "scroll" →
        (verify_action_from_screenshot o a s).1.success = true ∧
        (verify_action_from_screenshot o a s).1.changes_detected = true) ∧
    (a.type = some "click" →
        (verify_action_from_screenshot o a s).1.success = false ∧
        (verify_action_from_screenshot o a s).1.changes_detected = decide (o.page_url ≠ s.url)) := by
  unfold verify_action_from_screenshot
  rw [hshot]
  refine ⟨?_, ?_, ?_, ?_⟩
  · intro sel v hty hsel hval
    simp only [hty, hsel, hval]
    by_cases hc : strContains v (a.text.getD "") = true
    · simp [hc]
    · simp only [Bool.not_eq_true] at hc
      simp [hc]
  · intro hty
    simp only [hty]
    by_cases hu : o.page_url ≠ s.url
    · simp [hu]
    · simp [hu]
  · intro hty
    simp only [hty]
    simp
  · intro hty
    simp only [hty]
    by_cases hu : o.page_url ≠ s.url
    · simp [hu]
    · simp [hu]

/-- Witness for C6 at a concrete fill action. -/
theorem C6_verifier_witness :
    (verify_action_from_screenshot oracleC6
        { type := some "fill", selector := some "#f", text := some "world" }
        { url := "https://a" }).1.success =
      strContains "hello world"
        (({ type := some "fill", selector := some "#f", text := some "world" } : Action).text.getD "") ∧
    (strContains "hello world"
        (({ type := some "fill", selector := some "#f", text := some "world" } : Action).text.getD "") = false →
      (verify_action_from_screenshot oracleC6
          { type := some "fill", selector := some "#f", text := some "world" }
          { url := "https://a" }).1.verification_notes ≠ []) :=
  (C6_verifier_classification oracleC6 { url := "https://a" }
      { type := some "fill", selector := some "#f", text := some "world" } rfl).1
    "#f" "hello world" rfl rfl rfl

/-! Claim C2: the exhaustive-testing invariant. -/

/-- Claim C2 demonstration (code bug): the reasoning pass that follows the
extraction clears `found_element_context` unconditionally (main.py lines
1523-1525), so at the next executor entry `testingRequired` is gone: a
scroll action proposed with one selector still owed is executed against the
page (ops non-empty, nothing raised) instead of being rejected, and the
testing context has vanished after zero accepted click/fill/press actions. -/
theorem C2_testing_protocol_lost :
    (agent_reasoning_store_and_clear { type := some "scroll", direction := some "down" }
        c2StateAfterExtract).found_element_context = none ∧
    (execute_action_node oracleA
        (agent_reasoning_store_and_clear { type := some "scroll", direction := some "down" }
          c2StateAfterExtract)).raised = none ∧
    (execute_action_node oracleA
        (agent_reasoning_store_and_clear { type := some "scroll", direction := some "down" }
          c2StateAfterExtract)).path = .executed ∧
    (execute_action_node oracleA
        (agent_reasoning_store_and_clear { type := some "scroll", direction := some "down" }
          c2StateAfterExtract)).ops ≠ [] ∧
    (execute_action_node oracleA
        (agent_reasoning_store_and_clear { type := some "scroll", direction := some "down" }
          c2StateAfterExtract)).state.found_element_context = none ∧
    (execute_action_node oracleA
        (agent_reasoning_store_and_clear { type := some "scroll", direction := some "down" }
          c2StateAfterExtract)).state.step = c2StateAfterExtract.step + 1 := by
  refine ⟨by decide, by decide, by decide, by decide, by decide, by decide⟩

/-! Claim C3: the executor's step/exception contract. -/

set_option maxHeartbeats 1000000

theorem clickBranch_frame (o : PageOracle) (a : Action) (s : AgentState) :
    (clickBranch o a s).stateOf.step = s.step ∧ (clickBranch o a s).isEarly = false := by
  unfold clickBranch
  (try dsimp only)
  repeat' split
  all_goals exact ⟨rfl, rfl⟩

theorem fillBranch_frame (o : PageOracle) (a : Action) (s : AgentState) :
    (fillBranch o a s).stateOf.step = s.step ∧ (fillBranch o a s).isEarly = false := by
  unfold fillBranch
  (try dsimp only)
  repeat' split
  all_goals exact ⟨rfl, rfl⟩

theorem pressBranch_frame (o : PageOracle) (a : Action) (s : AgentState) :
    (pressBranch o a s).stateOf.step = s.step ∧ (pressBranch o a s).isEarly = false := by
  unfold pressBranch
  (try dsimp only)
  repeat' split
  all_goals exact ⟨rfl, rfl⟩

theorem scrollBranch_frame (o : PageOracle) (a : Action) (s : AgentState) :
    (scrollBranch o a s).stateOf.step = s.step ∧ (scrollBranch o a s).isEarly = false := by
  unfold scrollBranch
  (try dsimp only)
  repeat' split
  all_goals exact ⟨rfl, rfl⟩

theorem extractBranch_frame (o : PageOracle) (a : Action) (s : AgentState) :
    (extractBranch o a s).stateOf.step = s.step ∧ (extractBranch o a s).isEarly = false := by
  unfold extractBranch
  exact ⟨rfl, rfl⟩

theorem dismissPopupBranch_step (o : PageOracle) (a : Action) (s : AgentState) :
    (dismissPopupBranch o a s).stateOf.step = s.step := by
  unfold dismissPopupBranch
  (try dsimp only)
  repeat' split
  all_goals rfl

theorem solveCaptchaBranch_frame (o : PageOracle) (s : AgentState) :
    (solveCaptchaBranch o s).stateOf.step = s.step ∧
      (solveCaptchaBranch o s).isEarly = false := by
  unfold solveCaptchaBranch
  (try dsimp only)
  repeat' split
  all_goals exact ⟨rfl, rfl⟩

theorem extractSelectorBranch_frame (o : PageOracle) (a : Action) (s : AgentState) :
    (extractSelectorBranch o a s).stateOf.step = s.step ∧
      (extractSelectorBranch o a s).isEarly = false := by
  unfold extractSelectorBranch
  (try dsimp only)
  repeat' split
  all_goals exact ⟨rfl, rfl⟩

theorem requestUserInputBranch_frame (o : PageOracle) (a : Action) (s : AgentState) :
    (requestUserInputBranch o a s).stateOf.step = s.step ∧
      (requestUserInputBranch o a s).isEarly = false := by
  unfold requestUserInputBranch
  (try dsimp only)
  repeat' split
  all_goals exact ⟨rfl, rfl⟩

theorem closePopupBranch_frame (a : Action) (s : AgentState) :
    (closePopupBranch a s).stateOf.step = s.step ∧ (closePopupBranch a s).isEarly = false := by
  unfold closePopupBranch
  exact ⟨rfl, rfl⟩

/-- The `try:` body never changes `step`. -/
theorem tryBody_step (o : PageOracle) (a : Action) (s : AgentState) :
    (tryBody o a s).stateOf.step = s.step := by
  unfold tryBody
  repeat' split
  all_goals first
    | exact (clickBranch_frame o a s).1
    | exact (fillBranch_frame o a s).1
    | exact (pressBranch_frame o a s).1
    | exact (scrollBranch_frame o a s).1
    | exact (extractBranch_frame o a s).1
    | exact dismissPopupBranch_step o a s
    | exact (solveCaptchaBranch_frame o s).1
    | exact (extractSelectorBranch_frame o a s).1
    | exact (requestUserInputBranch_frame o a s).1
    | exact (closePopupBranch_frame a s).1
    | rfl

/-- Only the popup-dismissal branch returns early. -/
theorem tryBody_early (o : PageOracle) (a : Action) (s : AgentState) :
    (tryBody o a s).isEarly = true → a.type = some "dismiss_popup_using_text" := by
  unfold tryBody
  repeat' split
  all_goals intro h
  all_goals first
    | (rw [(clickBranch_frame o a s).2] at h; exact Bool.noConfusion h)
    | (rw [(fillBranch_frame o a s).2] at h; exact Bool.noConfusion h)
    | (rw [(pressBranch_frame o a s).2] at h; exact Bool.noConfusion h)
    | (rw [(scrollBranch_frame o a s).2] at h; exact Bool.noConfusion h)
    | (rw [(extractBranch_frame o a s).2] at h; exact Bool.noConfusion h)
    | (rw [(solveCaptchaBranch_frame o s).2] at h; exact Bool.noConfusion h)
    | (rw [(extractSelectorBranch_frame o a s).2] at h; exact Bool.noConfusion h)
    | (rw [(requestUserInputBranch_frame o a s).2] at h; exact Bool.noConfusion h)
    | (rw [(closePopupBranch_frame a s).2] at h; exact Bool.noConfusion h)
    | assumption
    | exact Bool.noConfusion h

/-- Verification never changes `step`. -/
theorem verify_step (o : PageOracle) (a : Action) (s : AgentState) :
    (verify_action_from_screenshot o a s).2.step = s.step := by
  unfold verify_action_from_screenshot
  repeat' split
  all_goals rfl

/-- The login-failure probe never changes `step`. -/
theorem loginFailureCheck_step (o : PageOracle) (a : Action) (sig : String) (s : AgentState) :
    (loginFailureCheck o a sig s).1.step = s.step := by
  unfold loginFailureCheck
  repeat' split
  all_goals rfl

/-- The post-try processing never raises. -/
theorem afterTry_raised (o : PageOracle) (a : Action) (sig : String) (t : TryResult) :
    (afterTry o a sig t).raised = none := by
  cases t <;> rfl

/-- The success path advances `step` by exactly one. -/
theorem afterTry_step_ok (o : PageOracle) (a : Action) (sig : String)
    (s : AgentState) (ops : List PageOp) :
    (afterTry o a sig (.ok s ops)).state.step = s.step + 1 := by
  have h1 := verify_step o a s
  show (loginFailureCheck o a sig _).1.step + 1 = _
  rw [loginFailureCheck_step]
  show (urlRefresh o (verify_action_from_screenshot o a s).2).step + 1 = s.step + 1
  unfold urlRefresh
  split
  · show (verify_action_from_screenshot o a s).2.step + 1 = s.step + 1
    rw [h1]
  · rw [h1]

/-- The caught-exception path advances `step` by exactly one. -/
theorem afterTry_step_exn (o : PageOracle) (a : Action) (sig : String)
    (e : String) (s : AgentState) (ops : List PageOp) :
    (afterTry o a sig (.exn e s ops)).state.step = s.step + 1 := by
  show (loginFailureCheck o a sig _).1.step + 1 = _
  rw [loginFailureCheck_step]

/-- The early popup-dismissal return keeps `step` unchanged. -/
theorem afterTry_step_early (o : PageOracle) (a : Action) (sig : String)
    (s : AgentState) (ops : List PageOp) :
    (afterTry o a sig (.early s ops)).state.step = s.step := rfl

/-- Step accounting for the composed `try:` block and its aftermath. -/
theorem execAfter_spec (o : PageOracle) (a : Action) (sig : String) (sMid : AgentState) :
    (afterTry o a sig (tryBody o a sMid)).raised = none ∧
    ((afterTry o a sig (tryBody o a sMid)).state.step = sMid.step + 1 ∨
     ((afterTry o a sig (tryBody o a sMid)).state.step = sMid.step ∧
      a.type = some "dismiss_popup_using_text")) := by
  have hts := tryBody_step o a sMid
  have hte := tryBody_early o a sMid
  cases htb : tryBody o a sMid with
  | ok s1 ops =>
      rw [htb] at hts
      refine ⟨afterTry_raised o a sig _, Or.inl ?_⟩
      rw [afterTry_step_ok]
      simpa [TryResult.stateOf] using hts
  | early s1 ops =>
      rw [htb] at hts hte
      refine ⟨afterTry_raised o a sig _, Or.inr ⟨?_, hte rfl⟩⟩
      rw [afterTry_step_early]
      simpa [TryResult.stateOf] using hts
  | exn e s1 ops =>
      rw [htb] at hts
      refine ⟨afterTry_raised o a sig _, Or.inl ?_⟩
      rw [afterTry_step_exn]
      simpa [TryResult.stateOf] using hts

/-- Counterexample to C3 as stated: with the mandatory-testing protocol
active and a wrong selector proposed, the executor raises out of the node
and `step` is NOT incremented, contradicting "a protocol-violation
rejection still increments step and does not propagate an exception". -/
theorem C3_counterexample :
    (execute_action_node oracleA
        { step := 3
          found_element_context := some
            { text := "Search", untested_selectors := ["#extracted-1"],
              current_test_index := 0, testing_required := true }
          last_action := { type := some "click", selector := some "#my-own-guess" } }).raised.isSome
      = true ∧
    (execute_action_node oracleA
        { step := 3
          found_element_context := some
            { text := "Search", untested_selectors := ["#extracted-1"],
              current_test_index := 0, testing_required := true }
          last_action := { type := some "click", selector := some "#my-own-guess" } }).state.step
      = 3 := by
  refine ⟨by decide, by decide⟩

/-- Claim C3, amended: one pass of the executor never raises except on a
protocol violation (brain-generated selector or mandatory-testing breach),
which propagates out of the node with `step` unchanged; every non-raising
pass increments `step` by exactly 1, except the early return after a
successful popup dismissal, which keeps `step` unchanged.  Page exceptions
inside the `try:` are caught and still increment `step`. -/
theorem C3_amended (o : PageOracle) (s : AgentState) :
    ((execute_action_node o s).raised.isSome = true →
      (execute_action_node o s).state.step = s.step ∧ protocolViolationStep s) ∧
    ((execute_action_node o s).raised = none →
      ((execute_action_node o s).state.step = s.step + 1 ∨
       ((execute_action_node o s).state.step = s.step ∧
        s.last_action.type = some "dismiss_popup_using_text"))) := by
  unfold execute_action_node
  (try dsimp only)
  split
  · constructor
    · intro h; simp [blockedResult] at h
    · intro _; left; rfl
  · split
    · rename_i hbrain
      constructor
      · intro _
        refine ⟨rfl, Or.inl ?_⟩
        rw [show brainCheckRaises s.last_action s.found_element_context =
          brainCheckRaises s.last_action
            ({ s with attempted_action_signatures :=
              s.attempted_action_signatures ++
                [make_action_signature (some s.last_action)] } : AgentState).found_element_context
          from rfl, hbrain]
        rfl
      · intro h; cases h
    · rename_i hbrain
      split
      · rename_i m hproto
        constructor
        · intro _
          exact ⟨rfl, Or.inr ⟨m, hproto⟩⟩
        · intro h; cases h
      · rename_i ctx hproto
        constructor
        · intro hr
          rw [(execAfter_spec o s.last_action _ _).1] at hr
          exact Bool.noConfusion hr
        · intro _
          exact (execAfter_spec o s.last_action _ _).2

/-- Witness for C3's amended theorem: the protocol-violation conjunct at the
counterexample input. -/
theorem C3_amended_witness :
    (execute_action_node oracleA
        { step := 3
          found_element_context := some
            { text := "Search", untested_selectors := ["#extracted-1"],
              current_test_index := 0, testing_required := true }
          last_action := { type := some "click", selector := some "#my-own-guess" } }).state.step
        = 3 ∧
      protocolViolationStep
        { step := 3
          found_element_context := some
            { text := "Search", untested_selectors := ["#extracted-1"],
              current_test_index := 0, testing_required := true }
          last_action := { type := some "click", selector := some "#my-own-guess" } } :=
  (C3_amended oracleA
      { step := 3
        found_element_context := some
          { text := "Search", untested_selectors := ["#extracted-1"],
            current_test_index := 0, testing_required := true }
        last_action := { type := some "click", selector := some "#my-own-guess" } }).1
    (by decide)

/-! Dictionary lemmas. -/

theorem dictSet_lookup_self {α : Type} (d : List (String × α)) (k : String) (v : α) :
    (dictSet d k v).lookup k = some v := by
  induction d with
  | nil => simp [dictSet, List.lookup]
  | cons hd tl ih =>
      obtain ⟨k0, v0⟩ := hd
      by_cases h0 : k0 = k
      · subst h0
        simp [dictSet, List.lookup]
      · have hb : (k == k0) = false := by
          simp only [beq_eq_false_iff_ne, ne_eq]
          exact fun hc => h0 hc.symm
        simp [dictSet, h0, List.lookup, hb, ih]

theorem dictIncr_lookup_self (d : List (String × Nat)) (k : String) :
    (dictIncr d k).lookup k = some ((d.lookup k).getD 0 + 1) :=
  dictSet_lookup_self d k _

theorem dictSet_lookup_isSome {α : Type} (d : List (String × α)) (k sg : String) (v : α)
    (h : (d.lookup sg).isSome = true) :
    ((dictSet d k v).lookup sg).isSome = true := by
  by_cases hk : sg = k
  · subst hk
    rw [dictSet_lookup_self]
    rfl
  · have hbk : (sg == k) = false := by
      simp only [beq_eq_false_iff_ne, ne_eq]
      exact hk
    induction d with
    | nil => simp [List.lookup] at h
    | cons hd tl ih =>
        obtain ⟨k0, v0⟩ := hd
        by_cases h0 : k0 = k
        · subst h0
          simp only [dictSet, if_pos rfl]
          simp only [List.lookup, hbk] at h ⊢
          exact h
        · simp only [dictSet, if_neg h0]
          simp only [List.lookup] at h ⊢
          by_cases hs : sg = k0
          · simp [hs]
          · have hb0 : (sg == k0) = false := by
              simp only [beq_eq_false_iff_ne, ne_eq]
              exact hs
            simp only [hb0] at h ⊢
            exact ih h

/-! Field-preservation lemmas for the post-execution phases. -/

theorem clickBranch_failedA (o : PageOracle) (a : Action) (s : AgentState) :
    (clickBranch o a s).stateOf.failed_actions = s.failed_actions := by
  unfold clickBranch
  (try dsimp only)
  repeat' split
  all_goals rfl

theorem fillBranch_failedA (o : PageOracle) (a : Action) (s : AgentState) :
    (fillBranch o a s).stateOf.failed_actions = s.failed_actions := by
  unfold fillBranch
  (try dsimp only)
  repeat' split
  all_goals rfl

theorem pressBranch_failedA (o : PageOracle) (a : Action) (s : AgentState) :
    (pressBranch o a s).stateOf.failed_actions = s.failed_actions := by
  unfold pressBranch
  (try dsimp only)
  repeat' split
  all_goals rfl

theorem scrollBranch_failedA (o : PageOracle) (a : Action) (s : AgentState) :
    (scrollBranch o a s).stateOf.failed_actions = s.failed_actions := by
  unfold scrollBranch
  (try dsimp only)
  repeat' split
  all_goals rfl

theorem extractBranch_failedA (o : PageOracle) (a : Action) (s : AgentState) :
    (extractBranch o a s).stateOf.failed_actions = s.failed_actions := by
  unfold extractBranch
  rfl

theorem dismissPopupBranch_failedA (o : PageOracle) (a : Action) (s : AgentState) :
    (dismissPopupBranch o a s).stateOf.failed_actions = s.failed_actions := by
  unfold dismissPopupBranch
  (try dsimp only)
  repeat' split
  all_goals rfl

theorem solveCaptchaBranch_failedA (o : PageOracle) (s : AgentState) :
    (solveCaptchaBranch o s).stateOf.failed_actions = s.failed_actions := by
  unfold solveCaptchaBranch
  (try dsimp only)
  repeat' split
  all_goals rfl

theorem extractSelectorBranch_failedA (o : PageOracle) (a : Action) (s : AgentState) :
    (extractSelectorBranch o a s).stateOf.failed_actions = s.failed_actions := by
  unfold extractSelectorBranch
  (try dsimp only)
  repeat' split
  all_goals rfl

theorem requestUserInputBranch_failedA (o : PageOracle) (a : Action) (s : AgentState) :
    (requestUserInputBranch o a s).stateOf.failed_actions = s.failed_actions := by
  unfold requestUserInputBranch
  (try dsimp only)
  repeat' split
  all_goals rfl

theorem closePopupBranch_failedA (a : Action) (s : AgentState) :
    (closePopupBranch a s).stateOf.failed_actions = s.failed_actions := by
  unfold closePopupBranch
  rfl

/-- The `try:` body never changes `failed_actions` (the failure record is
written only by the `except` handler). -/
theorem tryBody_failed (o : PageOracle) (a : Action) (s : AgentState) :
    (tryBody o a s).stateOf.failed_actions = s.failed_actions := by
  unfold tryBody
  repeat' split
  all_goals first
    | exact clickBranch_failedA o a s
    | exact fillBranch_failedA o a s
    | exact pressBranch_failedA o a s
    | exact scrollBranch_failedA o a s
    | exact extractBranch_failedA o a s
    | exact dismissPopupBranch_failedA o a s
    | exact solveCaptchaBranch_failedA o s
    | exact extractSelectorBranch_failedA o a s
    | exact requestUserInputBranch_failedA o a s
    | exact closePopupBranch_failedA a s
    | rfl

/-- The URL refresh changes no field except `url`. -/
theorem urlRefresh_frame (o : PageOracle) (s2 : AgentState) :
    (urlRefresh o s2).failed_actions = s2.failed_actions ∧
    (urlRefresh o s2).found_element_context = s2.found_element_context ∧
    (urlRefresh o s2).recent_extracts = s2.recent_extracts ∧
    (urlRefresh o s2).user_input_response = s2.user_input_response ∧
    (urlRefresh o s2).user_input_request = s2.user_input_request ∧
    (urlRefresh o s2).user_input_flow_active = s2.user_input_flow_active ∧
    (urlRefresh o s2).history = s2.history ∧
    (urlRefresh o s2).step = s2.step := by
  unfold urlRefresh
  split
  all_goals exact ⟨rfl, rfl, rfl, rfl, rfl, rfl, rfl, rfl⟩

/-- Verification only updates the verification log (and not any of the
fields below). -/
theorem verify_frame (o : PageOracle) (a : Action) (s : AgentState) :
    (verify_action_from_screenshot o a s).2.failed_actions = s.failed_actions ∧
    (verify_action_from_screenshot o a s).2.found_element_context = s.found_element_context ∧
    (verify_action_from_screenshot o a s).2.recent_extracts = s.recent_extracts ∧
    (verify_action_from_screenshot o a s).2.user_input_response = s.user_input_response ∧
    (verify_action_from_screenshot o a s).2.user_input_request = s.user_input_request ∧
    (verify_action_from_screenshot o a s).2.user_input_flow_active = s.user_input_flow_active ∧
    (verify_action_from_screenshot o a s).2.history = s.history := by
  unfold verify_action_from_screenshot
  (try dsimp only)
  repeat' split
  all_goals exact ⟨rfl, rfl, rfl, rfl, rfl, rfl, rfl⟩

/-- The login-failure probe touches only `history`. -/
theorem loginFailureCheck_frame (o : PageOracle) (a : Action) (sig : String) (s : AgentState) :
    (loginFailureCheck o a sig s).1.failed_actions = s.failed_actions ∧
    (loginFailureCheck o a sig s).1.found_element_context = s.found_element_context ∧
    (loginFailureCheck o a sig s).1.recent_extracts = s.recent_extracts ∧
    (loginFailureCheck o a sig s).1.user_input_response = s.user_input_response ∧
    (loginFailureCheck o a sig s).1.user_input_request = s.user_input_request ∧
    (loginFailureCheck o a sig s).1.user_input_flow_active = s.user_input_flow_active := by
  unfold loginFailureCheck
  (try dsimp only)
  repeat' split
  all_goals exact ⟨rfl, rfl, rfl, rfl, rfl, rfl⟩

/-- The login-failure probe only appends to `history`. -/
theorem loginFailureCheck_hist (o : PageOracle) (a : Action) (sig : String) (s : AgentState) :
    ∃ rest, (loginFailureCheck o a sig s).1.history = s.history ++ rest := by
  unfold loginFailureCheck
  (try dsimp only)
  repeat' split
  all_goals first
    | exact ⟨_, rfl⟩
    | exact ⟨[], by simp⟩

/-- Fields of the success path: everything below is inherited from the
`try:` body's final state. -/
theorem afterTry_ok_fields (o : PageOracle) (a : Action) (sig : String)
    (s : AgentState) (ops : List PageOp) :
    (afterTry o a sig (.ok s ops)).state.failed_actions = s.failed_actions ∧
    (afterTry o a sig (.ok s ops)).state.found_element_context = s.found_element_context ∧
    (afterTry o a sig (.ok s ops)).state.recent_extracts = s.recent_extracts ∧
    (afterTry o a sig (.ok s ops)).state.user_input_response = s.user_input_response ∧
    (afterTry o a sig (.ok s ops)).state.user_input_request = s.user_input_request ∧
    (afterTry o a sig (.ok s ops)).state.user_input_flow_active = s.user_input_flow_active ∧
    ∃ rest, (afterTry o a sig (.ok s ops)).state.history = s.history ++ rest := by
  have hv := verify_frame o a s
  have hu := urlRefresh_frame o (verify_action_from_screenshot o a s).2
  refine ⟨?_, ?_, ?_, ?_, ?_, ?_, ?_⟩
  · show (loginFailureCheck o a sig _).1.failed_actions = _
    rw [(loginFailureCheck_frame o a sig _).1]
    show (urlRefresh o (verify_action_from_screenshot o a s).2).failed_actions = _
    rw [hu.1, hv.1]
  · show (loginFailureCheck o a sig _).1.found_element_context = _
    rw [(loginFailureCheck_frame o a sig _).2.1]
    show (urlRefresh o (verify_action_from_screenshot o a s).2).found_element_context = _
    rw [hu.2.1, hv.2.1]
  · show (loginFailureCheck o a sig _).1.recent_extracts = _
    rw [(loginFailureCheck_frame o a sig _).2.2.1]
    show (urlRefresh o (verify_action_from_screenshot o a s).2).recent_extracts = _
    rw [hu.2.2.1, hv.2.2.1]
  · show (loginFailureCheck o a sig _).1.user_input_response = _
    rw [(loginFailureCheck_frame o a sig _).2.2.2.1]
    show (urlRefresh o (verify_action_from_screenshot o a s).2).user_input_response = _
    rw [hu.2.2.2.1, hv.2.2.2.1]
  · show (loginFailureCheck o a sig _).1.user_input_request = _
    rw [(loginFailureCheck_frame o a sig _).2.2.2.2.1]
    show (urlRefresh o (verify_action_from_screenshot o a s).2).user_input_request = _
    rw [hu.2.2.2.2.1, hv.2.2.2.2.1]
  · show (loginFailureCheck o a sig _).1.user_input_flow_active = _
    rw [(loginFailureCheck_frame o a sig _).2.2.2.2.2]
    show (urlRefresh o (verify_action_from_screenshot o a s).2).user_input_flow_active = _
    rw [hu.2.2.2.2.2.1, hv.2.2.2.2.2.1]
  · obtain ⟨r, hr⟩ := loginFailureCheck_hist o a sig
      { urlRefresh o (verify_action_from_screenshot o a s).2 with
        history := (urlRefresh o (verify_action_from_screenshot o a s).2).history ++
          [executedMessage sig (verify_action_from_screenshot o a s).1
            (urlRefresh o (verify_action_from_screenshot o a s).2).step] }
    refine ⟨(executedMessage sig (verify_action_from_screenshot o a s).1
        (urlRefresh o (verify_action_from_screenshot o a s).2).step) :: r, ?_⟩
    show (loginFailureCheck o a sig _).1.history = _
    rw [hr]
    show (urlRefresh o (verify_action_from_screenshot o a s).2).history ++ _ ++ _ = _
    rw [hu.2.2.2.2.2.2.1, hv.2.2.2.2.2.2]
    simp

/-- The caught-exception path increments the signature's failure count. -/
theorem afterTry_exn_failedActions (o : PageOracle) (a : Action) (sig : String)
    (e : String) (s : AgentState) (ops : List PageOp) :
    (afterTry o a sig (.exn e s ops)).state.failed_actions = dictIncr s.failed_actions sig := by
  show (loginFailureCheck o a sig _).1.failed_actions = _
  rw [(loginFailureCheck_frame o a sig _).1]

/-- The caught-exception path records the failure history entry (the login
probe may append a further entry). -/
theorem afterTry_exn_history (o : PageOracle) (a : Action) (sig : String)
    (e : String) (s : AgentState) (ops : List PageOp) :
    ∃ rest, (afterTry o a sig (.exn e s ops)).state.history =
      s.history ++ [failedMessage sig (firstLine e) s.step] ++ rest := by
  obtain ⟨r, hr⟩ := loginFailureCheck_hist o a sig
    { s with
      history := s.history ++ [failedMessage sig (firstLine e) s.step]
      failed_actions := dictIncr s.failed_actions sig }
  refine ⟨r, ?_⟩
  show (loginFailureCheck o a sig _).1.history = _
  rw [hr]

/-- Ban persistence through the `try:` block and its aftermath. -/
theorem execAfter_ban_persist (o : PageOracle) (a : Action) (sig sg : String)
    (sMid : AgentState) (h : (sMid.failed_actions.lookup sg).isSome = true) :
    ((afterTry o a sig (tryBody o a sMid)).state.failed_actions.lookup sg).isSome = true := by
  have htf := tryBody_failed o a sMid
  cases htb : tryBody o a sMid with
  | ok s1 ops =>
      rw [htb] at htf
      rw [(afterTry_ok_fields o a sig s1 ops).1]
      have h2 : s1.failed_actions = sMid.failed_actions := htf
      rw [h2]
      exact h
  | early s1 ops =>
      rw [htb] at htf
      have h2 : s1.failed_actions = sMid.failed_actions := htf
      show ((s1.failed_actions).lookup sg).isSome = true
      rw [h2]
      exact h
  | exn e s1 ops =>
      rw [htb] at htf
      rw [afterTry_exn_failedActions]
      have h2 : s1.failed_actions = sMid.failed_actions := htf
      rw [h2]
      exact dictSet_lookup_isSome _ _ _ _ h

/-- The executor never removes a signature from the ban list. -/
theorem exec_preserves_ban (o : PageOracle) (s : AgentState) (sg : String)
    (h : (s.failed_actions.lookup sg).isSome = true) :
    ((execute_action_node o s).state.failed_actions.lookup sg).isSome = true := by
  unfold execute_action_node
  (try dsimp only)
  split
  · exact h
  · split
    · exact h
    · split
      · exact h
      · exact execAfter_ban_persist o s.last_action _ sg _ h

/-! Claim C4: failure recording and permanent banning. -/

theorem afterTry_path_ok (o : PageOracle) (a : Action) (sig : String)
    (s : AgentState) (ops : List PageOp) :
    (afterTry o a sig (.ok s ops)).path = .executed := rfl

theorem afterTry_path_early (o : PageOracle) (a : Action) (sig : String)
    (s : AgentState) (ops : List PageOp) :
    (afterTry o a sig (.early s ops)).path = .early := rfl

theorem afterTry_path_exn (o : PageOracle) (a : Action) (sig : String)
    (e : String) (s : AgentState) (ops : List PageOp) :
    (afterTry o a sig (.exn e s ops)).path = .failed e := rfl

/-- Consequences of the `except` handler having run for error `e`. -/
theorem execAfter_failed_spec (o : PageOracle) (a : Action) (sig : String)
    (sMid : AgentState) (e : String)
    (h : (afterTry o a sig (tryBody o a sMid)).path = .failed e) :
    (afterTry o a sig (tryBody o a sMid)).raised = none ∧
    (afterTry o a sig (tryBody o a sMid)).state.step = sMid.step + 1 ∧
    (afterTry o a sig (tryBody o a sMid)).state.failed_actions.lookup sig =
      some ((sMid.failed_actions.lookup sig).getD 0 + 1) ∧
    ∃ entry ∈ (afterTry o a sig (tryBody o a sMid)).state.history,
      ∃ u v, entry = u ++ firstLine e ++ v := by
  cases htb : tryBody o a sMid with
  | ok s1 ops =>
      rw [htb, afterTry_path_ok] at h
      exact ExecPath.noConfusion h
  | early s1 ops =>
      rw [htb, afterTry_path_early] at h
      exact ExecPath.noConfusion h
  | exn e' s1 ops =>
      rw [htb, afterTry_path_exn] at h
      injection h with he
      subst he
      have hstep : s1.step = sMid.step := by
        have ht := tryBody_step o a sMid
        rw [htb] at ht
        exact ht
      have hfail : s1.failed_actions = sMid.failed_actions := by
        have ht := tryBody_failed o a sMid
        rw [htb] at ht
        exact ht
      refine ⟨afterTry_raised o a sig _, ?_, ?_, ?_⟩
      · rw [afterTry_step_exn, hstep]
      · rw [afterTry_exn_failedActions, hfail, dictIncr_lookup_self]
      · obtain ⟨r, hr⟩ := afterTry_exn_history o a sig e' s1 ops
        refine ⟨failedMessage sig (firstLine e') s1.step, ?_, ?_⟩
        · rw [hr]
          simp
        · refine ⟨"Step " ++ toString s1.step ++ ": " ++
            ("FAILED \x60" ++ sig ++ "\x60 error=\x27"),
            "\x27 (will avoid repeating).", ?_⟩
          simp [failedMessage, stepMsg, String.append_assoc]

/-- Claim C4: when executing an action against the page raises, the executor
catches the exception, appends a failure history entry containing the
(first line of the) error text, increments `failedActions[signature]` by
exactly 1 (creating the entry at 1 if absent), and still increments `step`
by 1; moreover any proposal whose signature is in `failedActions` is blocked
with no page operation, and the executor never removes a signature from
`failedActions`. -/
theorem C4_failure_recording (o : PageOracle) (s : AgentState) (e : String)
    (h : (execute_action_node o s).path = .failed e) :
    (execute_action_node o s).raised = none ∧
    (execute_action_node o s).state.step = s.step + 1 ∧
    (execute_action_node o s).state.failed_actions.lookup
        (make_action_signature (some s.last_action)) =
      some ((s.failed_actions.lookup (make_action_signature (some s.last_action))).getD 0 + 1) ∧
    (∃ entry ∈ (execute_action_node o s).state.history,
        ∃ u v, entry = u ++ firstLine e ++ v) ∧
    (∀ o2 : PageOracle, ∀ s2 : AgentState, ∀ k : Nat,
        s2.failed_actions.lookup (make_action_signature (some s2.last_action)) = some k →
        (execute_action_node o2 s2).ops = [] ∧
        (execute_action_node o2 s2).path = .blocked ∧
        (execute_action_node o2 s2).state.step = s2.step + 1) ∧
    (∀ o2 : PageOracle, ∀ s2 : AgentState, ∀ sg : String,
        (s2.failed_actions.lookup sg).isSome = true →
        ((execute_action_node o2 s2).state.failed_actions.lookup sg).isSome = true) := by
  have hmain : (execute_action_node o s).raised = none ∧
      (execute_action_node o s).state.step = s.step + 1 ∧
      (execute_action_node o s).state.failed_actions.lookup
          (make_action_signature (some s.last_action)) =
        some ((s.failed_actions.lookup
          (make_action_signature (some s.last_action))).getD 0 + 1) ∧
      ∃ entry ∈ (execute_action_node o s).state.history,
        ∃ u v, entry = u ++ firstLine e ++ v := by
    revert h
    unfold execute_action_node
    (try dsimp only)
    split
    · intro h
      simp [blockedResult] at h
    · split
      · intro h
        exact ExecPath.noConfusion h
      · split
        · intro h
          exact ExecPath.noConfusion h
        · intro h
          exact execAfter_failed_spec o s.last_action _ _ e h
  refine ⟨hmain.1, hmain.2.1, hmain.2.2.1, hmain.2.2.2, ?_, ?_⟩
  · intro o2 s2 k hk
    unfold execute_action_node
    simp only [hk, blockedResult]
    repeat' apply And.intro
    all_goals first | rfl | trivial
  · intro o2 s2 sg hs
    exact exec_preserves_ban o2 s2 sg hs

/-- Witness for C4 at a concrete input: a click that times out. -/
theorem C4_failure_recording_witness :
    (execute_action_node oracleFail
        { step := 2, last_action := { type := some "click", selector := some "#submit" } }).raised
      = none ∧
    (execute_action_node oracleFail
        { step := 2,
          last_action := { type := some "click", selector := some "#submit" } }).state.step
      = 2 + 1 :=
  let r := C4_failure_recording oracleFail
    { step := 2, last_action := { type := some "click", selector := some "#submit" } }
    "Timeout 5000ms exceeded" (by decide)
  ⟨r.1, r.2.1⟩

/-! Claim C8: the one-shot user-input gate. -/

/-- With no testing context pending, the brain-generated-selector check
never raises. -/
theorem brainCheck_none (a : Action) : brainCheckRaises a none = none := by
  unfold brainCheckRaises
  (try dsimp only)
  repeat' split
  all_goals first | rfl | simp_all

/-- A fill that consumes the stored user response and completes successfully
clears the gate: response emptied, request dropped, flow flag off. -/
theorem fillBranch_consumed (o : PageOracle) (a : Action) (s : AgentState)
    (ft t sel : String) (hs : List String)
    (htext : a.text = some ft)
    (hres : resolveFillText a s.user_input_response s.user_input_request s.step ft =
      .ok (t, true, hs))
    (hsel : a.selector = some sel)
    (hfill : o.fill sel t = .ok ()) :
    ∃ s1 ops, fillBranch o a s = .ok s1 ops ∧
      s1.user_input_response = "" ∧ s1.user_input_request = none ∧
      s1.user_input_flow_active = false := by
  unfold fillBranch
  rw [htext]
  (try dsimp only)
  rw [hres]
  (try dsimp only)
  rw [hsel]
  (try dsimp only)
  rw [hfill]
  (try dsimp only)
  exact ⟨_, _, rfl, rfl, rfl, rfl⟩

/-- Claim C8: the user-input gate is one-shot.  When a fill action that
consumes `userInput.response` completes successfully, the executor's
resulting state has an empty `userInput.response`, no stored request, and
`flowActive` off; and no fill pass can consume when the stored response is
already empty, so at most one fill consumes a given response value. -/
theorem C8_user_input_one_shot (o : PageOracle) (s : AgentState)
    (ft t sel : String) (hs : List String)
    (hty : s.last_action.type = some "fill")
    (hctx : s.found_element_context = none)
    (hnodup : s.failed_actions.lookup (make_action_signature (some s.last_action)) = none)
    (htext : s.last_action.text = some ft)
    (hres : resolveFillText s.last_action s.user_input_response s.user_input_request
      s.step ft = .ok (t, true, hs))
    (hsel : s.last_action.selector = some sel)
    (hfill : o.fill sel t = .ok ()) :
    ((execute_action_node o s).state.user_input_response = "" ∧
     (execute_action_node o s).state.user_input_request = none ∧
     (execute_action_node o s).state.user_input_flow_active = false) ∧
    (∀ a2 : Action, ∀ req2 : Option UserInputRequest, ∀ st2 : Nat, ∀ ft2 : String,
        ∀ out : String × Bool × List String,
        resolveFillText a2 "" req2 st2 ft2 = .ok out → out.2.1 = false) := by
  constructor
  · unfold execute_action_node
    (try dsimp only)
    rw [hnodup]
    (try dsimp only)
    rw [hctx, brainCheck_none]
    (try dsimp only)
    unfold protocolCheck
    (try dsimp only)
    unfold tryBody
    rw [hty]
    rw [if_neg (by decide), if_pos rfl]
    obtain ⟨s1, ops1, hfb, h1, h2, h3⟩ :=
      fillBranch_consumed o s.last_action
        { s with
          attempted_action_signatures :=
            s.attempted_action_signatures ++ [make_action_signature (some s.last_action)]
          found_element_context := none }
        ft t sel hs htext hres hsel hfill
    rw [hfb]
    refine ⟨?_, ?_, ?_⟩
    · exact ((afterTry_ok_fields o s.last_action _ s1 ops1).2.2.2.1).trans h1
    · exact ((afterTry_ok_fields o s.last_action _ s1 ops1).2.2.2.2.1).trans h2
    · exact ((afterTry_ok_fields o s.last_action _ s1 ops1).2.2.2.2.2.1).trans h3
  · intro a2 req2 st2 ft2 out hout
    unfold resolveFillText at hout
    (try dsimp only at hout)
    split at hout
    · rw [if_neg (by simp)] at hout
      exact Except.noConfusion hout
    · rw [if_neg (by simp), if_neg (by simp), if_neg (by simp)] at hout
      cases hout
      rfl

/-- Witness for C8 at a concrete input. -/
theorem C8_user_input_one_shot_witness :
    (execute_action_node oracleA c8State).state.user_input_response = "" ∧
    (execute_action_node oracleA c8State).state.user_input_request = none ∧
    (execute_action_node oracleA c8State).state.user_input_flow_active = false :=
  (C8_user_input_one_shot oracleA c8State "\x7b\x7bPASSWORD\x7d\x7d" "hunter2" "#pw"
    ["Step 6: Using user-provided input via placeholder"]
    (by decide) (by decide) (by decide) (by decide) rfl (by decide) rfl).1

/-! Claim C10: extractSelector with zero DOM matches is a non-error step. -/

/-- With validated text and zero matches, the branch only appends the
"no elements found" history entry. -/
theorem extractSelectorBranch_noElements (o : PageOracle) (a : Action) (s : AgentState)
    (t : String)
    (htext : a.text = some t) (hne : ¬ t = "") (hlen : ¬ t.length > 100)
    (hsusp : suspicious_patterns.any (fun p => strContains (pyLower t) p) = false)
    (hrec : t ∉ lastN 3 s.recent_extracts)
    (hfind : o.find_elements t = []) :
    extractSelectorBranch o a s =
      .ok { s with history := s.history ++
        [stepMsg s.step ("NO ELEMENTS FOUND! Text: \x27" ++ t ++
          "\x27 - No elements contain this text in their attributes")] }
        [.evaluate "find_elements_live"] := by
  unfold extractSelectorBranch
  rw [htext]
  (try dsimp only [Option.getD])
  rw [if_neg hne, if_neg hlen]
  (try dsimp only)
  rw [if_neg (by simp [hsusp]), if_neg hrec, hfind]
  (try dsimp only)
  rw [if_neg (fun hc => hc rfl)]

/-- Membership in the history survives the success-path bookkeeping. -/
theorem mem_of_afterTry_ok_history (o : PageOracle) (a : Action) (sig : String)
    (s : AgentState) (ops : List PageOp) (x : String) (hx : x ∈ s.history) :
    x ∈ (afterTry o a sig (.ok s ops)).state.history := by
  obtain ⟨r, hr⟩ := (afterTry_ok_fields o a sig s ops).2.2.2.2.2.2
  rw [hr]
  exact List.mem_append.mpr (Or.inl hx)

/-- Claim C10: an `extract_correct_selector_using_text` action whose search
text passes validation but matches zero elements in the live DOM completes
as a non-error step: nothing is raised, the signature is not added to
`failedActions`, no testing protocol is installed, the text is not added to
`recentExtracts`, a "no elements found" history entry is appended, and
`step` still increments by 1. -/
theorem C10_extract_no_elements (o : PageOracle) (s : AgentState) (t : String)
    (hty : s.last_action.type = some "extract_correct_selector_using_text")
    (htext : s.last_action.text = some t)
    (hne : ¬ t = "") (hlen : ¬ t.length > 100)
    (hsusp : suspicious_patterns.any (fun p => strContains (pyLower t) p) = false)
    (hrec : t ∉ lastN 3 s.recent_extracts)
    (hfind : o.find_elements t = [])
    (hctx : s.found_element_context = none)
    (hnodup : s.failed_actions.lookup (make_action_signature (some s.last_action)) = none) :
    (execute_action_node o s).raised = none ∧
    (execute_action_node o s).path = .executed ∧
    (execute_action_node o s).state.step = s.step + 1 ∧
    (execute_action_node o s).state.failed_actions = s.failed_actions ∧
    (execute_action_node o s).state.found_element_context = none ∧
    (execute_action_node o s).state.recent_extracts = s.recent_extracts ∧
    stepMsg s.step ("NO ELEMENTS FOUND! Text: \x27" ++ t ++
      "\x27 - No elements contain this text in their attributes") ∈
      (execute_action_node o s).state.history := by
  unfold execute_action_node
  (try dsimp only)
  rw [hnodup]
  (try dsimp only)
  rw [hctx, brainCheck_none]
  (try dsimp only)
  unfold protocolCheck
  (try dsimp only)
  unfold tryBody
  rw [hty]
  rw [if_neg (by decide), if_neg (by decide), if_neg (by decide), if_neg (by decide),
    if_neg (by decide), if_neg (by decide), if_neg (by decide), if_pos rfl]
  have hbr := extractSelectorBranch_noElements o s.last_action
    { s with
      attempted_action_signatures :=
        s.attempted_action_signatures ++ [make_action_signature (some s.last_action)]
      found_element_context := none }
    t htext hne hlen hsusp hrec hfind
  rw [hbr]
  refine ⟨afterTry_raised o s.last_action _ _, afterTry_path_ok o s.last_action _ _ _, ?_, ?_, ?_, ?_, ?_⟩
  · rw [afterTry_step_ok]
  · exact (afterTry_ok_fields o s.last_action _ _ _).1
  · exact (afterTry_ok_fields o s.last_action _ _ _).2.1
  · exact (afterTry_ok_fields o s.last_action _ _ _).2.2.1
  · exact mem_of_afterTry_ok_history o s.last_action _ _ _ _ (by simp)

/-- Witness for C10 at a concrete input. -/
theorem C10_extract_no_elements_witness :
    (execute_action_node oracleNoElems c10State).raised = none ∧
    (execute_action_node oracleNoElems c10State).state.step = 8 + 1 :=
  let r := C10_extract_no_elements oracleNoElems c10State "Checkout"
    (by decide) (by decide) (by decide) (by decide) (by decide) (by decide) rfl
    (by decide) (by decide)
  ⟨r.1, r.2.2.1⟩

end AISA
